import Mathlib

set_option maxRecDepth 40000

/-!
Verification development for the go-dicom fork (reader `part_000`, `writer.go`,
`dicomlog`).  Go strings are modelled as lists of byte values (`List Nat`,
each < 256) because the repository manipulates raw, possibly invalid UTF-8.
Runes are modelled as `Nat` code points.  Machine integers are `Nat`/`Int`
with explicit `% 2^w` where Go truncates.
-/

namespace DicomSpec

/-- Byte sequence of a Lean string literal under UTF-8; used to transcribe the
Go string literals of the source into the byte-list model. -/
def gs (s : String) : List Nat :=
  s.data.flatMap (fun c => utf8Enc c.toNat)
where
  /-- UTF-8 encoding of one code point, as Go `string(r)` produces it
  (ill-formed code points become U+FFFD). -/
  utf8Enc (r : Nat) : List Nat :=
    if r < 0x80 then [r]
    else if r < 0x800 then [0xC0 + r / 64, 0x80 + r % 64]
    else if 0xD800 ≤ r ∧ r ≤ 0xDFFF then [0xEF, 0xBF, 0xBD]
    else if r < 0x10000 then [0xE0 + r / 4096, 0x80 + r / 64 % 64, 0x80 + r % 64]
    else if r ≤ 0x10FFFF then
      [0xF0 + r / 262144, 0x80 + r / 4096 % 64, 0x80 + r / 64 % 64, 0x80 + r % 64]
    else [0xEF, 0xBF, 0xBD]

/-- UTF-8 encoding of one rune, as Go `string(r)` produces it. -/
def utf8Encode (r : Nat) : List Nat := gs.utf8Enc r

/-- Whether a byte is a UTF-8 continuation byte (10xxxxxx). -/
def isCont (b : Nat) : Bool := 0x80 ≤ b && b ≤ 0xBF

/-- Acceptance of the second byte of a three-byte sequence given its leader,
per Go `unicode/utf8` (excludes overlong forms and surrogates). -/
def acc3 (b0 b1 : Nat) : Bool :=
  (b0 == 0xE0 && 0xA0 ≤ b1 && b1 ≤ 0xBF) ||
  (0xE1 ≤ b0 && b0 ≤ 0xEC && isCont b1) ||
  (b0 == 0xED && 0x80 ≤ b1 && b1 ≤ 0x9F) ||
  (0xEE ≤ b0 && b0 ≤ 0xEF && isCont b1)

/-- Acceptance of the second byte of a four-byte sequence given its leader,
per Go `unicode/utf8` (excludes overlong forms and values above U+10FFFF). -/
def acc4 (b0 b1 : Nat) : Bool :=
  (b0 == 0xF0 && 0x90 ≤ b1 && b1 ≤ 0xBF) ||
  (0xF1 ≤ b0 && b0 ≤ 0xF3 && isCont b1) ||
  (b0 == 0xF4 && 0x80 ≤ b1 && b1 ≤ 0x8F)

/-- Outcome of decoding one rune at the front of a string: the rune, how many
extra bytes beyond the leader were consumed, and whether the encoding was
valid.  Models Go `utf8.DecodeRuneInString`: a valid sequence yields its rune
and full size, anything invalid yields U+FFFD with size one. -/
def utf8Step (b0 : Nat) (t : List Nat) : Nat × Nat × Bool :=
  if b0 < 0x80 then (b0, 0, true)
  else if 0xC2 ≤ b0 && b0 ≤ 0xDF then
    match t with
    | b1 :: _ =>
      if isCont b1 then ((b0 - 0xC0) * 64 + (b1 - 0x80), 1, true) else (0xFFFD, 0, false)
    | [] => (0xFFFD, 0, false)
  else if 0xE0 ≤ b0 && b0 ≤ 0xEF then
    match t with
    | b1 :: b2 :: _ =>
      if acc3 b0 b1 && isCont b2 then
        ((b0 - 0xE0) * 4096 + (b1 - 0x80) * 64 + (b2 - 0x80), 2, true)
      else (0xFFFD, 0, false)
    | _ => (0xFFFD, 0, false)
  else if 0xF0 ≤ b0 && b0 ≤ 0xF4 then
    match t with
    | b1 :: b2 :: b3 :: _ =>
      if acc4 b0 b1 && isCont b2 && isCont b3 then
        ((b0 - 0xF0) * 262144 + (b1 - 0x80) * 4096 + (b2 - 0x80) * 64 + (b3 - 0x80), 3, true)
      else (0xFFFD, 0, false)
    | _ => (0xFFFD, 0, false)
  else (0xFFFD, 0, false)

/-- Fuel-driven worker for `utf8Chunks`.  Every iteration consumes at least one
byte, so fuel equal to the byte count always suffices. -/
def utf8ChunksF : Nat → List Nat → List (Nat × List Nat × Bool)
  | 0, _ => []
  | _ + 1, [] => []
  | fuel + 1, b0 :: t =>
    let (r, k, ok) := utf8Step b0 t
    (r, b0 :: t.take k, ok) :: utf8ChunksF fuel (t.drop k)

/-- Decomposition of a byte string into UTF-8 "chunks": each entry carries the
decoded rune, the bytes it consumed, and whether the encoding was valid.  This
models how Go's `for range` over a string walks it: a valid sequence yields its
rune, any invalid byte yields U+FFFD and advances a single byte. -/
def utf8Chunks (s : List Nat) : List (Nat × List Nat × Bool) := utf8ChunksF s.length s

/-- Rune sequence of a Go string, as `for range` yields it. -/
def utf8Decode (s : List Nat) : List Nat := (utf8Chunks s).map (·.1)

/-- Go `utf8.ValidString`. -/
def validUTF8 (s : List Nat) : Bool := (utf8Chunks s).all (·.2.2)

/-! Decode tables of the `golang.org/x/text/encoding/charmap` decoders used by
the source, for bytes `0x80..0xFF` (bytes below `0x80` decode to themselves).
An undefined byte decodes to U+FFFD, as the charmap decoders do. -/

/-- Decode table of `charmap.Windows1251` for bytes `0x80..0xFF`. -/
def win1251Table : List Nat :=
  [0x0402, 0x0403, 0x201A, 0x0453, 0x201E, 0x2026, 0x2020, 0x2021,
   0x20AC, 0x2030, 0x0409, 0x2039, 0x040A, 0x040C, 0x040B, 0x040F,
   0x0452, 0x2018, 0x2019, 0x201C, 0x201D, 0x2022, 0x2013, 0x2014,
   0xFFFD, 0x2122, 0x0459, 0x203A, 0x045A, 0x045C, 0x045B, 0x045F,
   0x00A0, 0x040E, 0x045E, 0x0408, 0x00A4, 0x0490, 0x00A6, 0x00A7,
   0x0401, 0x00A9, 0x0404, 0x00AB, 0x00AC, 0x00AD, 0x00AE, 0x0407,
   0x00B0, 0x00B1, 0x0406, 0x0456, 0x0491, 0x00B5, 0x00B6, 0x00B7,
   0x0451, 0x2116, 0x0454, 0x00BB, 0x0458, 0x0405, 0x0455, 0x0457,
   0x0410, 0x0411, 0x0412, 0x0413, 0x0414, 0x0415, 0x0416, 0x0417,
   0x0418, 0x0419, 0x041A, 0x041B, 0x041C, 0x041D, 0x041E, 0x041F,
   0x0420, 0x0421, 0x0422, 0x0423, 0x0424, 0x0425, 0x0426, 0x0427,
   0x0428, 0x0429, 0x042A, 0x042B, 0x042C, 0x042D, 0x042E, 0x042F,
   0x0430, 0x0431, 0x0432, 0x0433, 0x0434, 0x0435, 0x0436, 0x0437,
   0x0438, 0x0439, 0x043A, 0x043B, 0x043C, 0x043D, 0x043E, 0x043F,
   0x0440, 0x0441, 0x0442, 0x0443, 0x0444, 0x0445, 0x0446, 0x0447,
   0x0448, 0x0449, 0x044A, 0x044B, 0x044C, 0x044D, 0x044E, 0x044F]

/-- Decode table of `charmap.KOI8R` for bytes `0x80..0xFF`. -/
def koi8rTable : List Nat :=
  [0x2500, 0x2502, 0x250C, 0x2510, 0x2514, 0x2518, 0x251C, 0x2524,
   0x252C, 0x2534, 0x253C, 0x2580, 0x2584, 0x2588, 0x258C, 0x2590,
   0x2591, 0x2592, 0x2593, 0x2320, 0x25A0, 0x2219, 0x221A, 0x2248,
   0x2264, 0x2265, 0x00A0, 0x2321, 0x00B0, 0x00B2, 0x00B7, 0x00F7,
   0x2550, 0x2551, 0x2552, 0x0451, 0x2553, 0x2554, 0x2555, 0x2556,
   0x2557, 0x2558, 0x2559, 0x255A, 0x255B, 0x255C, 0x255D, 0x255E,
   0x255F, 0x2560, 0x2561, 0x0401, 0x2562, 0x2563, 0x2564, 0x2565,
   0x2566, 0x2567, 0x2568, 0x2569, 0x256A, 0x256B, 0x256C, 0x00A9,
   0x044E, 0x0430, 0x0431, 0x0446, 0x0434, 0x0435, 0x0444, 0x0433,
   0x0445, 0x0438, 0x0439, 0x043A, 0x043B, 0x043C, 0x043D, 0x043E,
   0x043F, 0x044F, 0x0440, 0x0441, 0x0442, 0x0443, 0x0436, 0x0432,
   0x044C, 0x044B, 0x0437, 0x0448, 0x044D, 0x0449, 0x0447, 0x044A,
   0x042E, 0x0410, 0x0411, 0x0426, 0x0414, 0x0415, 0x0424, 0x0413,
   0x0425, 0x0418, 0x0419, 0x041A, 0x041B, 0x041C, 0x041D, 0x041E,
   0x041F, 0x042F, 0x0420, 0x0421, 0x0422, 0x0423, 0x0416, 0x0412,
   0x042C, 0x042B, 0x0417, 0x0428, 0x042D, 0x0429, 0x0427, 0x042A]

/-- Decode table of `charmap.ISO8859_5` for bytes `0x80..0xFF`. -/
def iso88595Table : List Nat :=
  [0x0080, 0x0081, 0x0082, 0x0083, 0x0084, 0x0085, 0x0086, 0x0087,
   0x0088, 0x0089, 0x008A, 0x008B, 0x008C, 0x008D, 0x008E, 0x008F,
   0x0090, 0x0091, 0x0092, 0x0093, 0x0094, 0x0095, 0x0096, 0x0097,
   0x0098, 0x0099, 0x009A, 0x009B, 0x009C, 0x009D, 0x009E, 0x009F,
   0x00A0, 0x0401, 0x0402, 0x0403, 0x0404, 0x0405, 0x0406, 0x0407,
   0x0408, 0x0409, 0x040A, 0x040B, 0x040C, 0x00AD, 0x040E, 0x040F,
   0x0410, 0x0411, 0x0412, 0x0413, 0x0414, 0x0415, 0x0416, 0x0417,
   0x0418, 0x0419, 0x041A, 0x041B, 0x041C, 0x041D, 0x041E, 0x041F,
   0x0420, 0x0421, 0x0422, 0x0423, 0x0424, 0x0425, 0x0426, 0x0427,
   0x0428, 0x0429, 0x042A, 0x042B, 0x042C, 0x042D, 0x042E, 0x042F,
   0x0430, 0x0431, 0x0432, 0x0433, 0x0434, 0x0435, 0x0436, 0x0437,
   0x0438, 0x0439, 0x043A, 0x043B, 0x043C, 0x043D, 0x043E, 0x043F,
   0x0440, 0x0441, 0x0442, 0x0443, 0x0444, 0x0445, 0x0446, 0x0447,
   0x0448, 0x0449, 0x044A, 0x044B, 0x044C, 0x044D, 0x044E, 0x044F,
   0x2116, 0x0451, 0x0452, 0x0453, 0x0454, 0x0455, 0x0456, 0x0457,
   0x0458, 0x0459, 0x045A, 0x045B, 0x045C, 0x00A7, 0x045E, 0x045F]

/-- Decode table of `charmap.CodePage866` for bytes `0x80..0xFF`. -/
def cp866Table : List Nat :=
  [0x0410, 0x0411, 0x0412, 0x0413, 0x0414, 0x0415, 0x0416, 0x0417,
   0x0418, 0x0419, 0x041A, 0x041B, 0x041C, 0x041D, 0x041E, 0x041F,
   0x0420, 0x0421, 0x0422, 0x0423, 0x0424, 0x0425, 0x0426, 0x0427,
   0x0428, 0x0429, 0x042A, 0x042B, 0x042C, 0x042D, 0x042E, 0x042F,
   0x0430, 0x0431, 0x0432, 0x0433, 0x0434, 0x0435, 0x0436, 0x0437,
   0x0438, 0x0439, 0x043A, 0x043B, 0x043C, 0x043D, 0x043E, 0x043F,
   0x2591, 0x2592, 0x2593, 0x2502, 0x2524, 0x2561, 0x2562, 0x2556,
   0x2555, 0x2563, 0x2551, 0x2557, 0x255D, 0x255C, 0x255B, 0x2510,
   0x2514, 0x2534, 0x252C, 0x251C, 0x2500, 0x253C, 0x255E, 0x255F,
   0x255A, 0x2554, 0x2569, 0x2566, 0x2560, 0x2550, 0x256C, 0x2567,
   0x2568, 0x2564, 0x2565, 0x2559, 0x2558, 0x2552, 0x2553, 0x256B,
   0x256A, 0x2518, 0x250C, 0x2588, 0x2584, 0x258C, 0x2590, 0x2580,
   0x0440, 0x0441, 0x0442, 0x0443, 0x0444, 0x0445, 0x0446, 0x0447,
   0x0448, 0x0449, 0x044A, 0x044B, 0x044C, 0x044D, 0x044E, 0x044F,
   0x0401, 0x0451, 0x0404, 0x0454, 0x0407, 0x0457, 0x040E, 0x045E,
   0x00B0, 0x2219, 0x00B7, 0x221A, 0x2116, 0x00A4, 0x25A0, 0x00A0]

/-- Rune a single byte decodes to under a charmap table. -/
def charmapRune (table : List Nat) (b : Nat) : Nat :=
  if b < 0x80 then b else table.getD (b - 0x80) 0xFFFD

/-- Result of `decoder.String(text)` for a charmap decoder: every byte maps to
a rune, re-encoded as UTF-8.  Charmap decoders never report an error. -/
def charmapDecode (table : List Nat) (s : List Nat) : List Nat :=
  s.flatMap (fun b => utf8Encode (charmapRune table b))

/-- Predicate of `containsCyrillic` on one rune (source `part_000` lines
142-152): the four Cyrillic blocks. -/
def isCyrillicRune (r : Nat) : Bool :=
  (0x0400 ≤ r && r ≤ 0x04FF) || (0x0500 ≤ r && r ≤ 0x052F) ||
  (0x2DE0 ≤ r && r ≤ 0x2DFF) || (0xA640 ≤ r && r ≤ 0xA69F)

/-- Source `containsCyrillic`: whether any rune of the string lies in a
Cyrillic block. -/
def containsCyrillic (s : List Nat) : Bool := (utf8Decode s).any isCyrillicRune

/-- Predicate of `containsGarbage` on one rune: U+FFFD or a code point in
`0x80..0xFF`.  The two source conditions are mutually exclusive, so one rune is
counted at most once. -/
def isGarbageRune (r : Nat) : Bool := r == 0xFFFD || (0x80 ≤ r && r ≤ 0xFF)

/-- Source `containsGarbage` (`part_000` lines 275-293): more than 20% of the
runes look like mojibake.  The Go code compares `float64(garbage)/total > 0.2`;
this is modelled exactly as `5 * garbage > total`, which agrees with the IEEE
double comparison for every string short enough to exist in memory. -/
def containsGarbage (s : List Nat) : Bool :=
  let rs := utf8Decode s
  decide (0 < rs.length) && decide (rs.length < 5 * (rs.filter isGarbageRune).length)

/-- Candidate list of `detectCyrillicEncoding` (`part_000` lines 100-108), in
source order: encoding name and charmap decode table. -/
def cyrEncodings : List (String × List Nat) :=
  [("windows-1251", win1251Table), ("koi8-r", koi8rTable),
   ("iso-8859-5", iso88595Table), ("cp866", cp866Table)]

/-- Source `detectCyrillicEncoding` (`part_000` lines 93-139).  Valid UTF-8
passes through unchanged; otherwise the default encoding (when it names one of
the four candidates) is tried first, then the remaining candidates in order;
the first decoding containing a Cyrillic rune wins; otherwise the text is
returned unchanged.  Charmap decoders never return an error, so the source's
`err == nil` checks always pass. -/
def detectCyrillicEncoding (text : List Nat) (defaultEncoding : String) : List Nat :=
  if validUTF8 text then text
  else
    let firstTry : Option (List Nat) :=
      if defaultEncoding ≠ "" then
        match cyrEncodings.find? (fun p => p.1 == defaultEncoding) with
        | some p =>
          let d := charmapDecode p.2 text
          if containsCyrillic d then some d else none
        | none => none
      else none
    match firstTry with
    | some d => d
    | none =>
      match (cyrEncodings.filter (fun p => p.1 ≠ defaultEncoding)).find?
          (fun p => containsCyrillic (charmapDecode p.2 text)) with
      | some p => charmapDecode p.2 text
      | none => text

/-- Source `FilterNonPrintable` (`part_000` lines 295-303), parameterised by
the Go standard library's `unicode.IsPrint`, which is external to the
repository: keeps printable runes plus space and tab, re-encoding each kept
rune as Go `string(r)` does. -/
def filterNonPrintable (isPrint : Nat → Bool) (s : List Nat) : List Nat :=
  (utf8Decode s).flatMap
    (fun r => if isPrint r || r == 32 || r == 9 then utf8Encode r else [])

/-- Go `unicode.IsSpace`: the White_Space code points. -/
def isSpaceRune (r : Nat) : Bool :=
  r == 9 || r == 10 || r == 11 || r == 12 || r == 13 || r == 32 ||
  r == 0x85 || r == 0xA0 || r == 0x1680 || (0x2000 ≤ r && r ≤ 0x200A) ||
  r == 0x2028 || r == 0x2029 || r == 0x202F || r == 0x205F || r == 0x3000

/-- Go `strings.TrimSpace`: drops leading and trailing space runes, returning
the intervening bytes verbatim.  Invalid bytes decode to U+FFFD, which is not
a space, so trimming stops at them exactly as in Go. -/
def trimSpace (s : List Nat) : List Nat :=
  ((((utf8Chunks s).dropWhile (fun c => isSpaceRune c.1)).reverse.dropWhile
    (fun c => isSpaceRune c.1)).reverse).flatMap (fun c => c.2.1)

/-- Go `strings.Fields`: maximal runs of non-space separated by space runes. -/
def goFields (s : List Nat) : List (List Nat) :=
  (((utf8Chunks s).splitOnP (fun c => isSpaceRune c.1)).map
    (fun run => run.flatMap (fun c => c.2.1))).filter (fun w => w ≠ [])

/-- Name normalisation of `ParseSpecificCharacterSet` (`part_000` lines
466-468): trim, then collapse every run of internal whitespace to one space. -/
def normalizeName (s : List Nat) : List Nat :=
  List.intercalate (gs " ") (goFields (trimSpace s))

/-- Simple upper-case mapping of one rune as Go `strings.ToUpper` performs it,
restricted to the mappings that can reach the ASCII alias keys the source
compares against: ASCII letters plus U+0131 and U+017F (the only code points
whose Go upper case is ASCII).  Other runes are left unchanged; they can never
equal an ASCII key either way. -/
def upperRune (r : Nat) : Nat :=
  if 97 ≤ r && r ≤ 122 then r - 32
  else if r == 0x131 then 73
  else if r == 0x17F then 83
  else r

/-- Go `strings.ToUpper` over the byte-list model (see `upperRune`). -/
def goToUpper (s : List Nat) : List Nat :=
  (utf8Chunks s).flatMap (fun c => utf8Encode (upperRune c.1))

/-- Decoder value as the source observes it: either one of the named
`charmap` decoders of `getCustomDecoder`/`tryAlternativeEncodings`, or a
decoder obtained from `htmlindex.Get` for a given name. -/
inductive GoDecoder where
  | charmapDec (name : String)
  | htmlDec (name : List Nat)
deriving DecidableEq

/-- Source `CodingSystem`: the (alphabetic, ideographic, phonetic) decoder
triple.  `none` models a nil decoder (7-bit ASCII default). -/
structure CodingSystem where
  alphabetic : Option GoDecoder
  ideographic : Option GoDecoder
  phonetic : Option GoDecoder
deriving DecidableEq

/-- Source map `htmlEncodingNames`: DICOM charset name to
`encoding/htmlindex` name; the empty value means 7-bit ASCII. -/
def htmlEncodingNames : List (List Nat × List Nat) :=
  [(gs "", gs ""),
   (gs "ISO 2022 IR 6", gs "iso-8859-1"),
   (gs "ISO_IR 13", gs "shift_jis"),
   (gs "ISO 2022 IR 13", gs "shift_jis"),
   (gs "ISO_IR 100", gs "iso-8859-1"),
   (gs "ISO 2022 IR 100", gs "iso-8859-1"),
   (gs "ISO_IR 101", gs "iso-8859-2"),
   (gs "ISO 2022 IR 101", gs "iso-8859-2"),
   (gs "ISO_IR 109", gs "iso-8859-3"),
   (gs "ISO 2022 IR 109", gs "iso-8859-3"),
   (gs "ISO_IR 110", gs "iso-8859-4"),
   (gs "ISO 2022 IR 110", gs "iso-8859-4"),
   (gs "ISO_IR 126", gs "iso-ir-126"),
   (gs "ISO 2022 IR 126", gs "iso-ir-126"),
   (gs "ISO_IR 127", gs "iso-ir-127"),
   (gs "ISO 2022 IR 127", gs "iso-ir-127"),
   (gs "ISO_IR 138", gs "iso-ir-138"),
   (gs "ISO 2022 IR 138", gs "iso-ir-138"),
   (gs "ISO_IR 144", gs "iso-8859-5"),
   (gs "ISO 2022 IR 144", gs "iso-8859-5"),
   (gs "ISO_IR 148", gs "iso-ir-148"),
   (gs "ISO 2022 IR 148", gs "iso-ir-148"),
   (gs "ISO 2022 IR 149", gs "euc-kr"),
   (gs "ISO 2022 IR 159", gs "iso-2022-jp"),
   (gs "ISO_IR 166", gs "iso-ir-166"),
   (gs "ISO 2022 IR 166", gs "iso-ir-166"),
   (gs "ISO 2022 IR 87", gs "iso-2022-jp"),
   (gs "ISO_IR 192", gs "utf-8"),
   (gs "GB18030", gs "gb18030"),
   (gs "CP1250HACK", gs "windows-1250"),
   (gs "ISO_IR 146", gs "koi8-r"),
   (gs "ISO 2022 IR 146", gs "koi8-r"),
   (gs "WINDOWS-1251", gs "windows-1251"),
   (gs "CP1251", gs "windows-1251"),
   (gs "KOI8-R", gs "koi8-r"),
   (gs "KOI8-U", gs "koi8-u"),
   (gs "CP866", gs "ibm866"),
   (gs "IBM866", gs "ibm866")]

/-- Go map lookup on `htmlEncodingNames`. -/
def lookupEncodingName (name : List Nat) : Option (List Nat) :=
  (htmlEncodingNames.find? (fun p => p.1 == name)).map (·.2)

/-- Source `getCustomDecoder` (`part_000` lines 435-452). -/
def getCustomDecoder (encodingName : List Nat) : Option GoDecoder :=
  if encodingName == gs "iso-8859-5" then some (.charmapDec "iso-8859-5")
  else if encodingName == gs "koi8-r" then some (.charmapDec "koi8-r")
  else if encodingName == gs "koi8-u" then some (.charmapDec "koi8-u")
  else if encodingName == gs "windows-1251" then some (.charmapDec "windows-1251")
  else if encodingName == gs "windows-1250" then some (.charmapDec "windows-1250")
  else if encodingName == gs "ibm866" then some (.charmapDec "ibm866")
  else none

/-- Source `tryAlternativeEncodings` (`part_000` lines 530-557): loose alias
names for the Cyrillic charmaps, matched on the upper-cased name. -/
def tryAlternativeEncodings (name : List Nat) : Option GoDecoder :=
  let u := goToUpper name
  if u == gs "CYRILLIC" || u == gs "ISO-8859-5" || u == gs "ISO8859-5" then
    some (.charmapDec "iso-8859-5")
  else if u == gs "KOI8R" || u == gs "KOI-8-R" then some (.charmapDec "koi8-r")
  else if u == gs "KOI8U" || u == gs "KOI-8-U" then some (.charmapDec "koi8-u")
  else if u == gs "WIN-1251" || u == gs "WIN1251" || u == gs "WINDOWS1251" ||
      u == gs "CP-1251" then some (.charmapDec "windows-1251")
  else if u == gs "CP-866" || u == gs "CP866" || u == gs "DOS-866" ||
      u == gs "IBM-866" then some (.charmapDec "ibm866")
  else none

/-- Rename step of the CP1250 workaround (`part_000` lines 461-463): with the
fix enabled, the raw name `ISO_IR 100` becomes `CP1250HACK` before
normalisation. -/
def cp1250Remap (cp1250Fix : Bool) (name : List Nat) : List Nat :=
  if cp1250Fix && name == gs "ISO_IR 100" then gs "CP1250HACK" else name

/-- Decoder selection for one charset name inside `ParseSpecificCharacterSet`
(`part_000` lines 460-514).  `htmlGet name` models whether `htmlindex.Get`
succeeds for that name (the library is external to the repository).  Returns
the decoder (possibly nil) and whether the unknown-charset warning was
logged. -/
def buildDecoder (htmlGet : List Nat → Bool) (cp1250Fix : Bool) (name : List Nat) :
    Option GoDecoder × Bool :=
  let n := normalizeName (cp1250Remap cp1250Fix name)
  match lookupEncodingName n with
  | none =>
    match tryAlternativeEncodings n with
    | some d => (some d, false)
    | none => (if htmlGet (gs "utf-8") then some (.htmlDec (gs "utf-8")) else none, true)
  | some htmlName =>
    if htmlName == gs "" then (none, false)
    else
      match getCustomDecoder htmlName with
      | some d => (some d, false)
      | none =>
        if htmlGet htmlName then (some (.htmlDec htmlName), false)
        else
          match getCustomDecoder n with
          | some d => (some d, false)
          | none =>
            (if htmlGet (gs "utf-8") then some (.htmlDec (gs "utf-8")) else none, false)

/-- Source `ParseSpecificCharacterSet` (`part_000` lines 458-527): builds one
decoder per name and populates the triple by list length; every return site of
the source passes a nil error.  Returns the coding system, the per-name
unknown-charset warning flags, and the (always nil) error. -/
def parseSpecificCharacterSet (htmlGet : List Nat → Bool) (encodingNames : List (List Nat))
    (cp1250Fix : Bool) : CodingSystem × List Bool × Option String :=
  let results := encodingNames.map (buildDecoder htmlGet cp1250Fix)
  let decoders := results.map (·.1)
  let warns := results.map (·.2)
  let cs : CodingSystem :=
    match decoders with
    | [] => ⟨none, none, none⟩
    | [a] => ⟨a, a, a⟩
    | [a, b] => ⟨a, b, b⟩
    | a :: b :: c :: _ => ⟨a, b, c⟩
  (cs, warns, none)

/-! Data model.  The `Element` type and the tag constants live in repository
files that are not part of `src/`; they are modelled from the spec (section 3):
an element is a tag, a VR string, an undefined-length flag and a value list,
where a value is a tagged variant over the concrete cases of the spec.  Float
values carry their raw IEEE bit patterns, since the codec only moves their
bytes. -/

/-- DICOM tag: a `(group, element)` pair of 16-bit values. -/
structure Tag where
  group : Nat
  element : Nat
deriving DecidableEq

mutual
/-- Value variant of one data element (spec section 3). -/
inductive Value where
  | str : List Nat → Value
  | u16 : Nat → Value
  | u32 : Nat → Value
  | i16 : Int → Value
  | i32 : Int → Value
  | f32 : Nat → Value
  | f64 : Nat → Value
  | bytes : List Nat → Value
  | tagv : Tag → Value
  | sub : Element → Value
  | pixels : List Nat → List (List Nat) → Value
/-- One data element (spec section 3): tag, VR, undefined-length flag and
value list. -/
inductive Element where
  | mk : Tag → String → Bool → List Value → Element
end

/-- Tag of an element. -/
def Element.tag : Element → Tag
  | .mk t _ _ _ => t

/-- VR of an element. -/
def Element.vr : Element → String
  | .mk _ v _ _ => v

/-- Undefined-length flag of an element. -/
def Element.undefinedLength : Element → Bool
  | .mk _ _ u _ => u

/-- Value list of an element. -/
def Element.value : Element → List Value
  | .mk _ _ _ vs => vs

/-- Element with its value list replaced (models assignment to
`elem.Value`). -/
def Element.setValue : Element → List Value → Element
  | .mk t v u _, vs => .mk t v u vs

/-- Special tags used by the codec, from the spec's data-model section (the
`dicomtag` package is not part of `src/`). -/
def tagSpecificCharacterSet : Tag := ⟨0x0008, 0x0005⟩

/-- Tag `(0002,0000)` FileMetaInformationGroupLength. -/
def tagFileMetaInformationGroupLength : Tag := ⟨0x0002, 0x0000⟩

/-- Tag `(0002,0001)` FileMetaInformationVersion. -/
def tagFileMetaInformationVersion : Tag := ⟨0x0002, 0x0001⟩

/-- Tag `(0002,0002)` MediaStorageSOPClassUID. -/
def tagMediaStorageSOPClassUID : Tag := ⟨0x0002, 0x0002⟩

/-- Tag `(0002,0003)` MediaStorageSOPInstanceUID. -/
def tagMediaStorageSOPInstanceUID : Tag := ⟨0x0002, 0x0003⟩

/-- Tag `(0002,0010)` TransferSyntaxUID. -/
def tagTransferSyntaxUID : Tag := ⟨0x0002, 0x0010⟩

/-- Tag `(0002,0012)` ImplementationClassUID. -/
def tagImplementationClassUID : Tag := ⟨0x0002, 0x0012⟩

/-- Tag `(0002,0013)` ImplementationVersionName. -/
def tagImplementationVersionName : Tag := ⟨0x0002, 0x0013⟩

/-- Tag `(7FE0,0010)` PixelData. -/
def tagPixelData : Tag := ⟨0x7FE0, 0x0010⟩

/-- Tag `(FFFE,E000)` Item. -/
def tagItem : Tag := ⟨0xFFFE, 0xE000⟩

/-- Tag `(FFFE,E00D)` ItemDelimitationItem. -/
def tagItemDelimitationItem : Tag := ⟨0xFFFE, 0xE00D⟩

/-- Tag `(FFFE,E0DD)` SequenceDelimitationItem. -/
def tagSequenceDelimitationItem : Tag := ⟨0xFFFE, 0xE0DD⟩

/-- Group `0x0002`, the meta group (`dicomtag.MetadataGroup`). -/
def metadataGroup : Nat := 0x0002

/-- Group `0xFFFE` (`itemSeqGroup`), always length-encoded Implicit-VR. -/
def itemSeqGroup : Nat := 0xFFFE

/-- Constants from `part_000`: the implementation UID prefix. -/
def goDICOMImplementationClassUIDPrefix : String := "1.2.826.0.1.3680043.9.7133"

/-- Source `GoDICOMImplementationClassUID`. -/
def goDICOMImplementationClassUID : String := goDICOMImplementationClassUIDPrefix ++ ".1.1"

/-- Source `GoDICOMImplementationVersionName`. -/
def goDICOMImplementationVersionName : String := "GODICOM_1_1"

/-- Source `ReadOptions` (`part_000` lines 46-63). -/
structure ReadOptions where
  dropPixelData : Bool
  returnTags : Option (List Tag)
  stopAtTag : Option Tag
  cp1250Fix : Bool
  defaultCyrillicEncoding : String

/-- Modelled from the spec: `Element.GetStrings` lives outside `src/`; per the
data model every value of a text element is a string variant, and the getter
fails when a value is not a string. -/
def getStrings (e : Element) : Except String (List (List Nat)) :=
  e.value.foldr
    (fun v acc =>
      match v, acc with
      | .str s, .ok ss => .ok (s :: ss)
      | _, .ok _ => .error "GetStrings: value is not a string"
      | _, .error m => .error m)
    (.ok [])

/-- Source `GetCleanStrings` (`part_000` lines 313-324): `GetStrings` with
`FilterNonPrintable` applied to each string. -/
def getCleanStrings (isPrint : Nat → Bool) (e : Element) : Except String (List (List Nat)) :=
  (getStrings e).map (fun ss => ss.map (filterNonPrintable isPrint))

/-- Source `processMultiValueDSElement` (`part_000` lines 155-170): a single
string value containing a backslash is split on backslashes into trimmed
sub-values. -/
def processMultiValueDSElement (e : Element) : Element :=
  match e.value with
  | [.str s] =>
    if s.contains 0x5C then
      e.setValue ((s.splitOn 0x5C).map (fun part => .str (trimSpace part)))
    else e
  | _ => e

/-- Cyrillic auto-detection step of the `ReadDataSet` loop (`part_000` lines
236-248): when no charset is installed and the first value is a non-empty
string that looks like mojibake, the detected decoding replaces the whole
value list, provided it differs from the original. -/
def autoDetectValues (defaultEncoding : String) (charsetSet : Bool) (e : Element) : Element :=
  if !charsetSet && !e.value.isEmpty then
    match e.value.head? with
    | some (.str s) =>
      if !s.isEmpty && containsGarbage s then
        let d := detectCyrillicEncoding s defaultEncoding
        if d ≠ s then e.setValue [.str d] else e
      else e
    | _ => e
  else e

/-- Source `tagInList` is outside `src/`; modelled from the spec as list
membership of the tag. -/
def tagInList (t : Tag) (tags : List Tag) : Bool := tags.any (fun u => u == t)

/-- State threaded through the `ReadDataSet` element loop: elements collected
so far, whether a `SpecificCharacterSet` was installed, the installed coding
system, and the sticky decoder error. -/
structure RState where
  elements : List Element
  charsetSet : Bool
  cs : CodingSystem
  err : Option String

/-- Sticky error on the charset-state triple (first error wins, as
`dicomio.Decoder.SetError` keeps the first error). -/
def setErrCore (c : Bool × CodingSystem × Option String) (m : String) :
    Bool × CodingSystem × Option String :=
  (c.1, c.2.1, match c.2.2 with
    | some m0 => some m0
    | none => some m)

/-- `SpecificCharacterSet` handling of the `ReadDataSet` loop (`part_000`
lines 211-233), acting on the (charsetSet, coding system, error) triple. -/
def charsetUpdate (isPrint : Nat → Bool) (htmlGet : List Nat → Bool) (cp1250Fix : Bool)
    (c : Bool × CodingSystem × Option String) (elem : Element) :
    Bool × CodingSystem × Option String :=
  if elem.tag == tagSpecificCharacterSet then
    match getCleanStrings isPrint elem with
    | .error m => setErrCore c m
    | .ok encodingNames =>
      match parseSpecificCharacterSet htmlGet encodingNames cp1250Fix with
      | (_, _, some m) => setErrCore c m
      | (cs, _, none) => (true, cs, c.2.2)
  else c

/-- Non-printable cleaning applied to string values at append time
(`part_000` lines 256-267). -/
def cleanValues (isPrint : Nat → Bool) (vs : List Value) : List Value :=
  vs.map (fun v => match v with
    | .str s => Value.str (filterNonPrintable isPrint s)
    | v => v)

/-- Starting state of the `ReadDataSet` element loop: no elements, no charset
installed, no error. -/
def initialRState : RState := ⟨[], false, ⟨none, none, none⟩, none⟩

/-- Value transform the loop applies to one element after charset handling:
Cyrillic auto-detection (`part_000` lines 236-248) followed by `DS` splitting
(lines 250-253). -/
def transformElem (defaultEncoding : String) (charsetSet : Bool) (e : Element) : Element :=
  let e := autoDetectValues defaultEncoding charsetSet e
  if e.vr == "DS" then processMultiValueDSElement e else e

/-- Body of the `ReadDataSet` element loop (`part_000` lines 197-270) for one
successfully parsed element, in source order: `SpecificCharacterSet`
installation, Cyrillic auto-detection, `DS` splitting, then the `ReturnTags`
filter with non-printable cleaning on append. -/
def readStep (isPrint : Nat → Bool) (htmlGet : List Nat → Bool) (options : ReadOptions)
    (st : RState) (elem : Element) : RState :=
  let c := charsetUpdate isPrint htmlGet options.cp1250Fix
    (st.charsetSet, st.cs, st.err) elem
  let st : RState := ⟨st.elements, c.1, c.2.1, c.2.2⟩
  let elem := transformElem options.defaultCyrillicEncoding st.charsetSet elem
  if options.returnTags.isNone ||
      (options.returnTags.isSome && tagInList elem.tag (options.returnTags.getD [])) then
    { st with elements := st.elements ++ [elem.setValue (cleanValues isPrint elem.value)] }
  else st

/-- Element loop of `ReadDataSet` over a stream of parsed elements.  Modelled
from the spec for the part outside `src/`: `ReadElement` itself is not in
`src/`, so the stream stands for the successive non-nil, non-sentinel elements
it produces; the loop body is the `src` code of `part_000` lines 197-270. -/
def readDataSetLoop (isPrint : Nat → Bool) (htmlGet : List Nat → Bool)
    (options : ReadOptions) (elems : List Element) : RState :=
  elems.foldl (readStep isPrint htmlGet options) initialRState

/-! Writer embedding (`writer.go`).  The `dicomio.Encoder` lives outside
`src/`; it is modelled from the spec's ByteCursor section: a growable output
buffer, a sticky error (first error wins), and a stack of
(byte order, VR mode) frames.  Writes append bytes; a `doassert` failure in
the source panics, which is modelled by a `panicked` flag that freezes the
encoder. -/

/-- Byte order. -/
inductive Endian where
  | little
  | big
deriving DecidableEq

/-- VR encoding mode (`dicomio.IsImplicitVR` has three values). -/
inductive VRMode where
  | explicitVR
  | implicitVR
  | unknownVR
deriving DecidableEq

/-- Little- or big-endian bytes of a 16-bit value (Go truncates to `uint16`
before writing). -/
def u16bytes (e : Endian) (v : Nat) : List Nat :=
  let v := v % 65536
  match e with
  | .little => [v % 256, v / 256]
  | .big => [v / 256, v % 256]

/-- Little- or big-endian bytes of a 32-bit value. -/
def u32bytes (e : Endian) (v : Nat) : List Nat :=
  let v := v % 4294967296
  match e with
  | .little => [v % 256, v / 256 % 256, v / 65536 % 256, v / 16777216]
  | .big => [v / 16777216, v / 65536 % 256, v / 256 % 256, v % 256]

/-- Little- or big-endian bytes of a 64-bit value. -/
def u64bytes (e : Endian) (v : Nat) : List Nat :=
  let v := v % 18446744073709551616
  match e with
  | .little => u32bytes .little (v % 4294967296) ++ u32bytes .little (v / 4294967296)
  | .big => u32bytes .big (v / 4294967296) ++ u32bytes .big (v % 4294967296)

/-- Encoder state, modelled from the spec's ByteCursor: output bytes, sticky
error, transfer-syntax stack, and a flag recording a source panic
(`doassert` failure or out-of-range index). -/
structure Enc where
  bytes : List Nat
  err : Option String
  stack : List (Endian × VRMode)
  panicked : Bool
deriving DecidableEq

/-- Fresh byte encoder with one transfer-syntax frame
(`dicomio.NewBytesEncoder`). -/
def Enc.fresh (ts : Endian × VRMode) : Enc := ⟨[], none, [ts], false⟩

/-- Current transfer syntax: top of the stack (`Encoder.TransferSyntax`). -/
def Enc.ts (e : Enc) : Endian × VRMode := e.stack.headD (.little, .unknownVR)

/-- Push a transfer-syntax frame. -/
def Enc.push (e : Enc) (ts : Endian × VRMode) : Enc :=
  if e.panicked then e else { e with stack := ts :: e.stack }

/-- Pop a transfer-syntax frame. -/
def Enc.pop (e : Enc) : Enc :=
  if e.panicked then e else { e with stack := e.stack.tail }

/-- Sticky error (first error wins, like `dicomio.Encoder.SetError`). -/
def Enc.setError (e : Enc) (m : String) : Enc :=
  if e.panicked then e
  else
    match e.err with
    | some _ => e
    | none => { e with err := some m }

/-- Mark a source panic; every later operation is a no-op. -/
def Enc.panic (e : Enc) : Enc := { e with panicked := true }

/-- Source `doassert`: panic when the condition fails. -/
def Enc.assert (e : Enc) (cond : Bool) : Enc := if cond then e else e.panic

/-- Propagate a panic observed in a sub-encoder. -/
def Enc.absorbPanic (e sub : Enc) : Enc :=
  if sub.panicked then e.panic else e

/-- Append raw bytes. -/
def Enc.writeBytes (e : Enc) (bs : List Nat) : Enc :=
  if e.panicked then e else { e with bytes := e.bytes ++ bs }

/-- Append one byte. -/
def Enc.writeByte (e : Enc) (b : Nat) : Enc := e.writeBytes [b]

/-- Append the bytes of a Go string literal. -/
def Enc.writeString (e : Enc) (s : String) : Enc := e.writeBytes (gs s)

/-- Append `n` zero bytes. -/
def Enc.writeZeros (e : Enc) (n : Nat) : Enc := e.writeBytes (List.replicate n 0)

/-- Append a 16-bit value in the current byte order. -/
def Enc.writeU16 (e : Enc) (v : Nat) : Enc := e.writeBytes (u16bytes e.ts.1 v)

/-- Append a 32-bit value in the current byte order. -/
def Enc.writeU32 (e : Enc) (v : Nat) : Enc := e.writeBytes (u32bytes e.ts.1 v)

/-- Append a 64-bit value in the current byte order. -/
def Enc.writeU64 (e : Enc) (v : Nat) : Enc := e.writeBytes (u64bytes e.ts.1 v)

/-- Append a signed 16-bit value (two's complement). -/
def Enc.writeI16 (e : Enc) (v : Int) : Enc := e.writeU16 (v.emod 65536).toNat

/-- Append a signed 32-bit value (two's complement). -/
def Enc.writeI32 (e : Enc) (v : Int) : Enc := e.writeU32 (v.emod 4294967296).toNat

/-- Uppercase hex digits of a natural number, at least one digit. -/
def hexUpper (n : Nat) : List Nat :=
  (Nat.toDigits 16 n).map (fun c => (c.toUpper).toNat)

/-- Go `fmt.Sprintf` with a `%0wX` verb: zero-padded uppercase hex of width at
least `w`. -/
def hexPad (w n : Nat) : List Nat :=
  let ds := hexUpper n
  List.replicate (w - ds.length) 48 ++ ds

/-- Decimal digits of an integer as Go `%v` prints it. -/
def decDigits (v : Int) : List Nat := gs (toString v)

/-- The undefined-length sentinel `0xFFFFFFFF`. -/
def undefinedLength : Nat := 0xFFFFFFFF

/-- Dictionary entry returned by `dicomtag.Find`. -/
structure TagInfo where
  vr : String
deriving DecidableEq

/-- External collaborators of the writer.  The `dicomtag` dictionary
(`Find`, `GetVRKind`) is outside `src/` and the spec calls it an external
oracle, so it is a parameter; `showV` models `fmt.Sprintf` with a `%v` verb on
the value types the writer's switch does not match explicitly; `native` is
`dicomio.NativeByteOrder` (the host byte order); `isPrint` is Go
`unicode.IsPrint`. -/
structure WEnv where
  find : Tag → Option TagInfo
  vrKind : Tag → String → Nat
  showV : Value → List Nat
  native : Endian
  isPrint : Nat → Bool

/-- Source `WriteOptSet` (`writer.go` lines 15-17). -/
structure WriteOptSet where
  skipVRVerification : Bool
deriving DecidableEq

/-- Source `WriteOption`: a mutation of the flattened option set. -/
def WriteOption := WriteOptSet → WriteOptSet

/-- Source `toWriteOptSet` (`writer.go` lines 19-25). -/
def toWriteOptSet (opts : List WriteOption) : WriteOptSet :=
  opts.foldl (fun s o => o s) ⟨false⟩

/-- Source `SkipVRVerification` option constructor (`writer.go` lines
32-36). -/
def skipVRVerificationOption : WriteOption := fun s => { s with skipVRVerification := true }

/-- Source `verifyVROrDefault` (`writer.go` lines 136-162): the returned
Boolean records whether the VR-mismatch warning was logged. -/
def verifyVROrDefault (env : WEnv) (t : Tag) (vr : String) (opts : WriteOptSet) :
    Except String (String × Bool) :=
  if vr ≠ "" && opts.skipVRVerification then .ok (vr, false)
  else
    match env.find t with
    | none => .ok (if vr = "" then "UN" else vr, false)
    | some tagInfo =>
      if vr = "" then .ok (tagInfo.vr, false)
      else if !opts.skipVRVerification && tagInfo.vr ≠ vr then
        if env.vrKind t tagInfo.vr ≠ env.vrKind t vr then
          .error "dicomio.veryifyElement: VR mismatch"
        else .ok (vr, true)
      else .ok (vr, false)

/-- VRs taking the reserved-bytes long length form in Explicit VR
(`writer.go` line 110). -/
def longLengthVRs : List String :=
  ["NA", "OB", "OD", "OF", "OL", "OW", "SQ", "UN", "UC", "UR", "UT"]

/-- Source `encodeElementHeader` (`writer.go` lines 97-120). -/
def encodeElementHeader (e : Enc) (t : Tag) (vr : String) (vl : Nat) : Enc :=
  let e := e.assert (vl == undefinedLength || vl % 2 == 0)
  let e := e.writeU16 t.group
  let e := e.writeU16 t.element
  let mode := if t.group == itemSeqGroup then VRMode.implicitVR else e.ts.2
  match mode with
  | .explicitVR =>
    let e := e.assert (vr.length == 2)
    let e := e.writeString vr
    if longLengthVRs.contains vr then (e.writeZeros 2).writeU32 vl
    else e.writeU16 vl
  | .implicitVR => e.writeU32 vl
  | .unknownVR => e.panic

/-- Source `writeRawItem` (`writer.go` lines 122-125). -/
def writeRawItem (e : Enc) (data : List Nat) : Enc :=
  (encodeElementHeader e tagItem "NA" (data.length % 4294967296)).writeBytes data

/-- Source `writeBasicOffsetTable` (`writer.go` lines 127-134). -/
def writeBasicOffsetTable (e : Enc) (offsets : List Nat) : Enc :=
  let sub := (Enc.fresh (e.ts.1, .implicitVR))
  let sub := offsets.foldl (fun s o => s.writeU32 o) sub
  writeRawItem (e.absorbPanic sub) sub.bytes

/-- Per-value string conversion of the writer's `UI` and default branches
(`writer.go` lines 365-379 and 399-413): strings pass through, tags format as
`%04X%04X`, `uint32` as `%08X`, byte slices as raw bytes, everything else via
`%v`. -/
def fmtValue (env : WEnv) (v : Value) : List Nat :=
  match v with
  | .str s => s
  | .tagv t => hexPad 4 t.group ++ hexPad 4 t.element
  | .u32 n => hexPad 8 (n % 4294967296)
  | .bytes bs => bs
  | .u16 n => decDigits (Int.ofNat (n % 65536))
  | .i16 n => decDigits n
  | .i32 n => decDigits n
  | v => env.showV v

/-- Backslash-joined string the writer builds from a value list
(`writer.go` lines 364-384 / 398-418). -/
def joinValues (env : WEnv) (vs : List Value) : List Nat :=
  List.intercalate [0x5C] (vs.map (fmtValue env))

/-- Go `uint16` pair re-reading of the `OW` branch: consume the payload two
bytes at a time in native byte order and re-emit each 16-bit value in the
target byte order (`writer.go` lines 350-356). -/
def owReorder (native target : Endian) : List Nat → List Nat
  | a :: b :: rest =>
    let v := match native with
      | .little => a + 256 * b
      | .big => 256 * a + b
    u16bytes target v ++ owReorder native target rest
  | _ => []

/-- Item loop of the undefined-length `SQ`/`NA` branches (`writer.go` lines
203-210 and 233-240): each value must be a sub-element (and, for `SQ`, carry
the Item tag); writes go straight into the encoder; a bad value sets the
error and aborts the enclosing `WriteElement` (second component false). -/
def writeSubDirect (recur : Enc → Element → Enc) (requireItem : Bool) (badMsg : String) :
    Enc → List Value → Enc × Bool
  | e, [] => (e, true)
  | e, v :: rest =>
    match v with
    | .sub s =>
      if requireItem && s.tag != tagItem then (e.setError badMsg, false)
      else writeSubDirect recur requireItem badMsg (recur e s) rest
    | _ => (e.setError badMsg, false)

/-- Item loop of the defined-length `SQ`/`NA` branches (`writer.go` lines
213-221 and 243-251): writes go into the sub-encoder, while a bad value sets
the error on the outer encoder and aborts. -/
def writeSubInto (recur : Enc → Element → Enc) (requireItem : Bool) (badMsg : String) :
    Enc → Enc → List Value → Enc × Enc × Bool
  | e, sube, [] => (e, sube, true)
  | e, sube, v :: rest =>
    match v with
    | .sub s =>
      if requireItem && s.tag != tagItem then (e.setError badMsg, sube, false)
      else writeSubInto recur requireItem badMsg e (recur sube s) rest
    | _ => (e.setError badMsg, sube, false)

/-- Value loop of the fixed-width numeric branches: a value of the wrong
dynamic type sets the error on the outer encoder and is skipped (`continue`);
a matching value appends its bytes to the sub-encoder. -/
def writeNumericValues (pick : Value → Option (Enc → Enc)) (msg : String) :
    Enc × Enc → List Value → Enc × Enc
  | (e, sube), [] => (e, sube)
  | (e, sube), v :: rest =>
    match pick v with
    | some w => writeNumericValues pick msg (e, w sube) rest
    | none => writeNumericValues pick msg (e.setError msg, sube) rest

/-- Value-payload switch of the general (non-pixel, non-`SQ`, non-`NA`) branch
of `WriteElement` (`writer.go` lines 267-423): fills the sub-encoder from the
value list, reporting type errors on the outer encoder.  The `UN`-with-
undefined-length hack leaves the sub-encoder empty. -/
def writeValuePayload (env : WEnv) (e sube : Enc) (elem : Element) (vr : String) :
    Enc × Enc :=
  if vr == "US" then
    writeNumericValues
      (fun v => match v with | .u16 n => some (fun s => s.writeU16 n) | _ => none)
      "expect uint16, but found another type" (e, sube) elem.value
  else if vr == "UL" then
    writeNumericValues
      (fun v => match v with | .u32 n => some (fun s => s.writeU32 n) | _ => none)
      "expect uint32, but found another type" (e, sube) elem.value
  else if vr == "SL" then
    writeNumericValues
      (fun v => match v with | .i32 n => some (fun s => s.writeI32 n) | _ => none)
      "expect int32, but found another type" (e, sube) elem.value
  else if vr == "SS" then
    writeNumericValues
      (fun v => match v with | .i16 n => some (fun s => s.writeI16 n) | _ => none)
      "expect int16, but found another type" (e, sube) elem.value
  else if vr == "FL" || vr == "OF" then
    writeNumericValues
      (fun v => match v with | .f32 bits => some (fun s => s.writeU32 bits) | _ => none)
      "expect float32, but found another type" (e, sube) elem.value
  else if vr == "FD" || vr == "OD" then
    writeNumericValues
      (fun v => match v with | .f64 bits => some (fun s => s.writeU64 bits) | _ => none)
      "expect float64, but found another type" (e, sube) elem.value
  else if vr == "OW" || vr == "OB" then
    match elem.value with
    | [.bytes bs] =>
      if vr == "OW" then
        if bs.length % 2 != 0 then
          (e.setError "expect a binary string of even length", sube)
        else (e, sube.writeBytes (owReorder env.native sube.ts.1 bs))
      else
        let sube := sube.writeBytes bs
        (e, if bs.length % 2 == 1 then sube.writeByte 0 else sube)
    | [_] => (e.setError "expect a binary string, but found another type", sube)
    | _ => (e.setError "expect a single value", sube)
  else if vr == "UI" then
    let s := joinValues env elem.value
    let sube := sube.writeBytes s
    (e, if s.length % 2 == 1 then sube.writeByte 0 else sube)
  else
    if elem.undefinedLength && vr == "UN" then (e, sube)
    else
      let s := joinValues env elem.value
      let sube := sube.writeBytes s
      (e, if s.length % 2 == 1 then sube.writeByte 32 else sube)

/-- Pixel-value extraction of the PixelData branch (`writer.go` lines
182-185): a non-`PixelDataInfo` value sets the error and leaves the zero
value (no offsets, no frames). -/
def pixelInfoOf (e : Enc) (v : Value) : List Nat × List (List Nat) × Enc :=
  match v with
  | .pixels off fr => (off, fr, e)
  | _ => ([], [],
      e.setError "PixelData element must have one value of type PixelDataInfo")

/-- Payload writing of the PixelData branch (`writer.go` lines 186-197). -/
def writePixelPayload (e : Enc) (elem : Element) (vr : String) (offsets : List Nat)
    (frames : List (List Nat)) : Enc :=
  if elem.undefinedLength then
    let e := encodeElementHeader e elem.tag vr undefinedLength
    let e := writeBasicOffsetTable e offsets
    let e := frames.foldl (fun e fr => writeRawItem e fr) e
    encodeElementHeader e tagSequenceDelimitationItem "" 0
  else
    let e := e.assert (frames.length == 1)
    let fr := frames.headD []
    (encodeElementHeader e elem.tag vr (fr.length % 4294967296)).writeBytes fr

/-- PixelData branch of `WriteElement` (`writer.go` lines 177-199): undefined
length emits the header, the basic offset table, one raw item per frame and
the sequence delimiter; defined length requires exactly one frame and emits
header plus frame bytes. -/
def writePixelData (e : Enc) (elem : Element) (vr : String) : Enc :=
  let e := if elem.value.length != 1 then
      e.setError "PixelData element must have one value of type PixelDataInfo"
    else e
  match elem.value.head? with
  | none => e.panic
  | some v =>
    match pixelInfoOf e v with
    | (offsets, frames, e) => writePixelPayload e elem vr offsets frames

/-- `SQ` and `NA` branches of `WriteElement` (`writer.go` lines 200-259),
which differ only in the Item requirement, the error message and the
delimiter tag: undefined length writes the items straight through and closes
with the delimiter; defined length writes them into a sub-encoder and emits
header plus its bytes. -/
def writeSeqLike (recur : Enc → Element → Enc) (requireItem : Bool) (badMsg : String)
    (delim : Tag) (e : Enc) (elem : Element) (vr : String) : Enc :=
  if elem.undefinedLength then
    let e := encodeElementHeader e elem.tag vr undefinedLength
    match writeSubDirect recur requireItem badMsg e elem.value with
    | (e, ok) => if ok then encodeElementHeader e delim "" 0 else e
  else
    let sube := Enc.fresh e.ts
    match writeSubInto recur requireItem badMsg e sube elem.value with
    | (e, sube, ok) =>
      let e := e.absorbPanic sube
      if ok then
        match sube.err with
        | some m => e.setError m
        | none =>
          (encodeElementHeader e elem.tag vr (sube.bytes.length % 4294967296)).writeBytes
            sube.bytes
      else e

/-- General branch of `WriteElement` (`writer.go` lines 260-431): reject
undefined length outside `UN`, fill the value payload into a sub-encoder,
then emit header plus payload. -/
def writeGeneral (env : WEnv) (e : Enc) (elem : Element) (vr : String) : Enc :=
  if elem.undefinedLength && vr != "UN" then
    e.setError "Encoding undefined-length element not yet supported"
  else
    let sube := Enc.fresh e.ts
    match writeValuePayload env e sube elem vr with
    | (e, sube) =>
      let e := e.absorbPanic sube
      match sube.err with
      | some m => e.setError m
      | none =>
        (encodeElementHeader e elem.tag vr (sube.bytes.length % 4294967296)).writeBytes
          sube.bytes

/-- One unfolding of `WriteElement` (`writer.go` lines 170-432), with the
recursive occurrence abstracted as `recur`.  After a modelled panic the
encoder state is meaningful only through its `panicked` flag (the Go program
has crashed). -/
def writeElementStep (env : WEnv) (opts : WriteOptSet) (recur : Enc → Element → Enc)
    (e : Enc) (elem : Element) : Enc :=
  match verifyVROrDefault env elem.tag elem.vr opts with
  | .error m => e.setError m
  | .ok (vr, _) =>
    let e := e.assert (vr != "")
    if elem.tag == tagPixelData then writePixelData e elem vr
    else if vr == "SQ" then
      writeSeqLike recur true "SQ element must be an Item" tagSequenceDelimitationItem
        e elem vr
    else if vr == "NA" then
      writeSeqLike recur false "Item values must be a dicom.Element"
        tagItemDelimitationItem e elem vr
    else writeGeneral env e elem vr

mutual
/-- Structural size of an element: one plus the sizes of its values. -/
def Element.esize : Element → Nat
  | .mk _ _ _ vs => 1 + Value.esizeList vs
/-- Structural size of a value: nesting depth contributes through `sub`. -/
def Value.esize : Value → Nat
  | .sub e => 1 + Element.esize e
  | _ => 1
/-- Sum of the sizes of a value list. -/
def Value.esizeList : List Value → Nat
  | [] => 0
  | v :: rest => Value.esize v + Value.esizeList rest
end

/-- Fuel-indexed iteration of `writeElementStep`.  Fuel only decreases when
recursing into a sub-element, whose size is strictly smaller, so fuel equal to
the size of the element always suffices and the zero case is unreachable from
`writeElement`. -/
def writeElementCore (env : WEnv) (opts : WriteOptSet) : Nat → Enc → Element → Enc
  | 0 => fun e _ => e.panic
  | fuel + 1 => writeElementStep env opts (writeElementCore env opts fuel)

/-- Source `WriteElement` (`writer.go` lines 170-432). -/
def writeElement (env : WEnv) (opts : WriteOptSet) (e : Enc) (elem : Element) : Enc :=
  writeElementCore env opts elem.esize e elem

/-- Modelled from the spec: `FindElementByTag` over a list lives outside
`src/`; it returns the first element carrying the tag, or an error. -/
def findElementByTag (elems : List Element) (t : Tag) : Option Element :=
  elems.find? (fun el => el.tag == t)

/-- Modelled from the spec: `MustNewElement` lives outside `src/`; it builds
an element whose VR is the dictionary VR of the tag and whose value list holds
the given value. -/
def mustNewElement (env : WEnv) (t : Tag) (v : Value) : Element :=
  .mk t (((env.find t).map (·.vr)).getD "UN") false [v]

/-- Fixed tag set marked used by `WriteFileHeader` (`writer.go` lines 56-78):
the group-length tag plus the six explicitly written meta tags. -/
def headerTagsUsed : List Tag :=
  [tagFileMetaInformationGroupLength, tagFileMetaInformationVersion,
   tagMediaStorageSOPClassUID, tagMediaStorageSOPInstanceUID, tagTransferSyntaxUID,
   tagImplementationClassUID, tagImplementationVersionName]

/-- Required-element writer of `WriteFileHeader` (`writer.go` lines 57-64):
write the element with the tag, or record the missing-element error. -/
def writeRequiredMetaElem (env : WEnv) (opts : WriteOptSet) (metaElems : List Element)
    (sub : Enc) (t : Tag) : Enc :=
  match findElementByTag metaElems t with
  | some el => writeElement env opts sub el
  | none => sub.setError "required meta element not found in metaelems"

/-- Optional-element writer of `WriteFileHeader` (`writer.go` lines 65-72):
write the element with the tag, or the default element for it. -/
def writeOptionalMetaElem (env : WEnv) (opts : WriteOptSet) (metaElems : List Element)
    (sub : Enc) (t : Tag) (dflt : Value) : Enc :=
  match findElementByTag metaElems t with
  | some el => writeElement env opts sub el
  | none => writeElement env opts sub (mustNewElement env t dflt)

/-- Sub-encoder meta block of `WriteFileHeader` (`writer.go` lines 54-85):
`FileMetaInformationVersion` (default bytes `"0 1"`), the three required UID
elements, the two implementation elements with their defaults, then every
remaining group-2 input element whose tag is not among the fixed set. -/
def buildMetaBlock (env : WEnv) (opts : WriteOptSet) (metaElems : List Element) : Enc :=
  let sub := Enc.fresh (.little, .explicitVR)
  let sub := writeOptionalMetaElem env opts metaElems sub tagFileMetaInformationVersion
    (.bytes (gs "0 1"))
  let sub := writeRequiredMetaElem env opts metaElems sub tagMediaStorageSOPClassUID
  let sub := writeRequiredMetaElem env opts metaElems sub tagMediaStorageSOPInstanceUID
  let sub := writeRequiredMetaElem env opts metaElems sub tagTransferSyntaxUID
  let sub := writeOptionalMetaElem env opts metaElems sub tagImplementationClassUID
    (.str (gs goDICOMImplementationClassUID))
  let sub := writeOptionalMetaElem env opts metaElems sub tagImplementationVersionName
    (.str (gs goDICOMImplementationVersionName))
  metaElems.foldl
    (fun sub el =>
      if el.tag.group == metadataGroup && !(headerTagsUsed.contains el.tag) then
        writeElement env opts sub el
      else sub)
    sub

/-- Source `WriteFileHeader` (`writer.go` lines 50-95): under Explicit-VR
little-endian, build the meta block in a sub-encoder; on sub-encoder error
propagate it, otherwise emit 128 zero bytes, `"DICM"`, the group-length
element holding the meta block's byte length, and the meta block itself. -/
def writeFileHeader (env : WEnv) (opts : WriteOptSet) (e : Enc)
    (metaElems : List Element) : Enc :=
  let e := e.push (.little, .explicitVR)
  let sub := buildMetaBlock env opts metaElems
  let e := e.absorbPanic sub
  match sub.err with
  | some m => (e.setError m).pop
  | none =>
    let metaBytes := sub.bytes
    let e := e.writeZeros 128
    let e := e.writeString "DICM"
    let e := writeElement env opts e
      (mustNewElement env tagFileMetaInformationGroupLength
        (.u32 (metaBytes.length % 4294967296)))
    (e.writeBytes metaBytes).pop

/-- Source `GetCleanString` (`part_000` lines 305-311) composed with the
spec-modelled `GetString` (outside `src/`): the element must hold exactly one
string value, which is filtered for printability. -/
def getCleanString (isPrint : Nat → Bool) (e : Element) : Except String (List Nat) :=
  match e.value with
  | [.str s] => .ok (filterNonPrintable isPrint s)
  | _ => .error "GetString: not a single string value"

/-- Modelled from the spec: `dicomio.ParseTransferSyntaxUID` is outside
`src/`; the spec's minimum set maps Implicit-VR LE, Explicit-VR LE and
Explicit-VR BE, and anything unrecognised is an error. -/
def parseTransferSyntaxUID (uid : List Nat) : Except String (Endian × VRMode) :=
  if uid == gs "1.2.840.10008.1.2" then .ok (.little, .implicitVR)
  else if uid == gs "1.2.840.10008.1.2.1" then .ok (.little, .explicitVR)
  else if uid == gs "1.2.840.10008.1.2.2" then .ok (.big, .explicitVR)
  else .error "unknown transfer syntax"

/-- Source `getTransferSyntax` (`part_000` lines 326-336). -/
def getTransferSyntax (isPrint : Nat → Bool) (elems : List Element) :
    Except String (Endian × VRMode) :=
  match findElementByTag elems tagTransferSyntaxUID with
  | none => .error "TransferSyntaxUID not found"
  | some el =>
    match getCleanString isPrint el with
    | .error m => .error m
    | .ok uid => parseTransferSyntaxUID uid

/-- Source `WriteDataSet` (`writer.go` lines 444-470): collect the group-2
elements, write the file header, stop on header error or unknown transfer
syntax, then push the data-set syntax and write every element whose group is
even and not the meta group, in order.  Returns the final encoder and the
function's returned error. -/
def writeDataSet (env : WEnv) (opts : WriteOptSet) (ds : List Element) :
    Enc × Option String :=
  let e : Enc := ⟨[], none, [(.little, .unknownVR)], false⟩
  let metaElems := ds.filter (fun el => el.tag.group == metadataGroup)
  let e := writeFileHeader env opts e metaElems
  match e.err with
  | some m => (e, some m)
  | none =>
    match getTransferSyntax env.isPrint ds with
    | .error m => (e, some m)
    | .ok ts =>
      let e := e.push ts
      let e := ds.foldl
        (fun e el =>
          if el.tag.group != metadataGroup && el.tag.group % 2 == 0 then
            writeElement env opts e el
          else e)
        e
      let e := e.pop
      (e, e.err)

/-! Claim-side definitions.  These two follow the wording of the spec's
auto-detection clause, to be compared against the source embedding. -/

/-- Priority list of the spec's auto-detection clause: the default Cyrillic
encoding first when it names a candidate, then the remaining candidates in
fixed order. -/
def cyrPriorityList (defaultEncoding : String) : List (String × List Nat) :=
  (match cyrEncodings.find? (fun p => p.1 == defaultEncoding) with
   | some p => [p]
   | none => []) ++ cyrEncodings.filter (fun p => p.1 ≠ defaultEncoding)

/-- Redecoding described by the spec: the first candidate of the priority
list whose decoding contains a Cyrillic rune wins; otherwise the text passes
through. -/
def specCyrillicRedecode (defaultEncoding : String) (s : List Nat) : List Nat :=
  match (cyrPriorityList defaultEncoding).find?
      (fun p => containsCyrillic (charmapDecode p.2 s)) with
  | some p => charmapDecode p.2 s
  | none => s

/-- Value payload the writer's default text branch produces: backslash-joined
formatted values, space-padded to even length. -/
def textPayload (env : WEnv) (vs : List Value) : List Nat :=
  let s := joinValues env vs
  s ++ (if s.length % 2 == 1 then [32] else [])

/-! Concrete fixtures used by witnesses and counterexamples. -/

/-- Dictionary oracle fixture covering the meta tags (standard DICOM VRs). -/
def fixFind (t : Tag) : Option TagInfo :=
  if t == tagFileMetaInformationGroupLength then some ⟨"UL"⟩
  else if t == tagFileMetaInformationVersion then some ⟨"OB"⟩
  else if t == tagMediaStorageSOPClassUID then some ⟨"UI"⟩
  else if t == tagMediaStorageSOPInstanceUID then some ⟨"UI"⟩
  else if t == tagTransferSyntaxUID then some ⟨"UI"⟩
  else if t == tagImplementationClassUID then some ⟨"UI"⟩
  else if t == tagImplementationVersionName then some ⟨"SH"⟩
  else none

/-- Writer-environment fixture: the dictionary above, a trivial VR-kind
oracle, empty `%v` rendering, little-endian host, ASCII printability. -/
def fixEnv : WEnv :=
  ⟨fixFind, fun _ _ => 0, fun _ => [], .little, fun r => 0x20 ≤ r && r < 0x7F⟩

/-- Option fixture with VR verification skipped. -/
def fixOptsSkip : WriteOptSet := ⟨true⟩

/-- Option fixture with VR verification active. -/
def fixOpts : WriteOptSet := ⟨false⟩

/-- Encoder fixture: fresh Explicit-VR little-endian encoder. -/
def fixEnc : Enc := Enc.fresh (.little, .explicitVR)

/-- Element fixture with VR `AT` holding one tag value. -/
def fixElemAT : Element := .mk ⟨0x0040, 0x9210⟩ "AT" false [.tagv ⟨0x0028, 0x0009⟩]

/-- Element fixture with VR `UN` and undefined length. -/
def fixElemUN : Element := .mk ⟨0x0010, 0x0010⟩ "UN" true [.str (gs "x")]

/-- Read-option fixture with no whitelist, no fixes, no default encoding. -/
def fixROpts : ReadOptions := ⟨false, none, none, false, ""⟩

/-- Element fixture whose single value is the valid-UTF-8 mojibake `Ð`
(bytes `C3 90`). -/
def fixGarbageElem : Element := .mk ⟨0x0010, 0x0010⟩ "SH" false [.str [0xC3, 0x90]]

/-- Element fixture whose single value is invalid UTF-8 (Windows-1251 bytes
of a Cyrillic word). -/
def fixCyrElem : Element := .mk ⟨0x0010, 0x0010⟩ "PN" false [.str [0xD0, 0xE5, 0xF2, 0xF0]]

/-- SpecificCharacterSet element fixture installing `ISO_IR 144`. -/
def fixSCSElem : Element := .mk tagSpecificCharacterSet "CS" false [.str (gs "ISO_IR 144")]

/-- Body element fixture `(0010,0010)`. -/
def fixPNElem : Element := .mk ⟨0x0010, 0x0010⟩ "PN" false [.str (gs "Doe^J")]

/-- Read-option fixture whose whitelist holds only `(0010,0010)`. -/
def fixROptsRT : ReadOptions := ⟨false, some [⟨0x0010, 0x0010⟩], none, false, ""⟩

/-- Printability fixture treating every rune as printable. -/
def fixPrintAll : Nat → Bool := fun _ => true

/-- htmlindex fixture treating every name as known. -/
def fixHtmlAll : List Nat → Bool := fun _ => true

/-- Data-set fixture: the three required meta elements, one extra meta
element, a charset element, a private odd-group element and a patient-name
element. -/
def fixDS : List Element :=
  [.mk tagMediaStorageSOPClassUID "UI" false [.str (gs "1.2.840.10008.5.1.4.1.1.7")],
   .mk tagMediaStorageSOPInstanceUID "UI" false [.str (gs "1.2.3.4")],
   .mk tagTransferSyntaxUID "UI" false [.str (gs "1.2.840.10008.1.2.1")],
   .mk ⟨0x0002, 0x0100⟩ "UI" false [.str (gs "9.9")],
   fixSCSElem,
   .mk ⟨0x0009, 0x0010⟩ "LO" false [.str (gs "priv")],
   fixPNElem]

/-! Shared helper lemmas. -/

/-- Tag is preserved by `setValue`. -/
theorem Element.tag_setValue (e : Element) (vs : List Value) : (e.setValue vs).tag = e.tag := by
  cases e
  rfl

/-- VR is preserved by `setValue`. -/
theorem Element.vr_setValue (e : Element) (vs : List Value) : (e.setValue vs).vr = e.vr := by
  cases e
  rfl

/-- Size of an element is positive. -/
theorem Element.esize_pos (e : Element) : 0 < e.esize := by
  cases e
  simp [Element.esize]

/-- One-step unfolding of `writeElement` into `writeElementStep`. -/
theorem writeElement_eq_step (env : WEnv) (opts : WriteOptSet) (e : Enc) (elem : Element) :
    writeElement env opts e elem =
      writeElementStep env opts (writeElementCore env opts (elem.esize - 1)) e elem := by
  have h : elem.esize = (elem.esize - 1) + 1 := by
    have := elem.esize_pos
    omega
  rw [writeElement, h]
  rfl

/-! C10. -/

/-- C10: `detectCyrillicEncoding` is the identity on valid UTF-8 input, for
every default-encoding choice, so auto-detection never alters a text value
that is already valid UTF-8 even when the garbage heuristic flags it. -/
theorem detectCyrillicEncoding_id_on_valid_utf8 (s : List Nat) (defaultEncoding : String)
    (h : validUTF8 s = true) : detectCyrillicEncoding s defaultEncoding = s := by
  rw [detectCyrillicEncoding, h]
  rfl

/-- Witness for C10 at the concrete valid-UTF-8 string `abc`. -/
theorem detectCyrillicEncoding_id_on_valid_utf8_witness :
    validUTF8 (gs "abc") = true ∧ detectCyrillicEncoding (gs "abc") "koi8-r" = gs "abc" :=
  ⟨by decide, detectCyrillicEncoding_id_on_valid_utf8 (gs "abc") "koi8-r" (by decide)⟩

/-! C6. -/

/-- C6: `ParseSpecificCharacterSet` never fails: the returned error is nil for
every name list and either flag value, and a name that normalises to something
absent from the fixed map and matching no alternative alias produces the UTF-8
fallback decoder together with the unknown-charset warning. -/
theorem parseSpecificCharacterSet_never_fails (htmlGet : List Nat → Bool)
    (names : List (List Nat)) (cp1250Fix : Bool)
    (hutf : htmlGet (gs "utf-8") = true) :
    (parseSpecificCharacterSet htmlGet names cp1250Fix).2.2 = none ∧
    ∀ name,
      lookupEncodingName (normalizeName (cp1250Remap cp1250Fix name)) = none →
      tryAlternativeEncodings (normalizeName (cp1250Remap cp1250Fix name)) = none →
      buildDecoder htmlGet cp1250Fix name = (some (.htmlDec (gs "utf-8")), true) := by
  constructor
  · rfl
  · intro name h1 h2
    rw [buildDecoder, h1, h2, hutf]
    rfl

/-- Witness for C6 at the unknown charset name `FOOBAR`. -/
theorem parseSpecificCharacterSet_never_fails_witness :
    (parseSpecificCharacterSet (fun s => s == gs "utf-8") [gs "FOOBAR"] false).2.2 = none ∧
    buildDecoder (fun s => s == gs "utf-8") false (gs "FOOBAR") =
      (some (.htmlDec (gs "utf-8")), true) := by
  have h := parseSpecificCharacterSet_never_fails (fun s => s == gs "utf-8")
    [gs "FOOBAR"] false (by decide)
  exact ⟨h.1, h.2 (gs "FOOBAR") (by decide) (by decide)⟩

/-! C7. -/

/-- C7: `ParseSpecificCharacterSet` populates the decoder triple by list
length: zero or one names fill all three slots with the same decoder, two
names give `(a,b,b)`, three names give `(a,b,c)`. -/
theorem parseSpecificCharacterSet_triple (htmlGet : List Nat → Bool)
    (names : List (List Nat)) (cp1250Fix : Bool) :
    (names = [] →
      (parseSpecificCharacterSet htmlGet names cp1250Fix).1 = ⟨none, none, none⟩) ∧
    (∀ a, names = [a] →
      (parseSpecificCharacterSet htmlGet names cp1250Fix).1 =
        ⟨(buildDecoder htmlGet cp1250Fix a).1, (buildDecoder htmlGet cp1250Fix a).1,
         (buildDecoder htmlGet cp1250Fix a).1⟩) ∧
    (∀ a b, names = [a, b] →
      (parseSpecificCharacterSet htmlGet names cp1250Fix).1 =
        ⟨(buildDecoder htmlGet cp1250Fix a).1, (buildDecoder htmlGet cp1250Fix b).1,
         (buildDecoder htmlGet cp1250Fix b).1⟩) ∧
    (∀ a b c, names = [a, b, c] →
      (parseSpecificCharacterSet htmlGet names cp1250Fix).1 =
        ⟨(buildDecoder htmlGet cp1250Fix a).1, (buildDecoder htmlGet cp1250Fix b).1,
         (buildDecoder htmlGet cp1250Fix c).1⟩) := by
  refine ⟨?_, ?_, ?_, ?_⟩
  · rintro rfl
    rfl
  · rintro a rfl
    rfl
  · rintro a b rfl
    rfl
  · rintro a b c rfl
    rfl

/-- Witness for C7 at a concrete two-name list. -/
theorem parseSpecificCharacterSet_triple_witness :
    (parseSpecificCharacterSet fixHtmlAll [gs "ISO_IR 100", gs "ISO_IR 144"] false).1 =
      ⟨some (.htmlDec (gs "iso-8859-1")), some (.charmapDec "iso-8859-5"),
       some (.charmapDec "iso-8859-5")⟩ := by
  have h := (parseSpecificCharacterSet_triple fixHtmlAll
    [gs "ISO_IR 100", gs "ISO_IR 144"] false).2.2.1 (gs "ISO_IR 100") (gs "ISO_IR 144") rfl
  rw [h]
  decide

/-! C4. -/

/-- C4: on write, a supplied non-empty VR disagreeing with the dictionary VR
for the tag makes `WriteElement` fail when the two VRs fall into different
coarse VR kinds, while agreeing kinds keep the supplied VR with the warning
flag set; `SkipVRVerification` disables the verification entirely for a
supplied VR. -/
theorem verifyVROrDefault_mismatch (env : WEnv) (t : Tag) (vr : String)
    (opts : WriteOptSet) (info : TagInfo) (hvr : vr ≠ "")
    (hfind : env.find t = some info) (hne : info.vr ≠ vr) :
    (opts.skipVRVerification = false →
      (env.vrKind t info.vr ≠ env.vrKind t vr →
        verifyVROrDefault env t vr opts = .error "dicomio.veryifyElement: VR mismatch" ∧
        ∀ (e : Enc) (u : Bool) (vals : List Value),
          writeElement env opts e (.mk t vr u vals) =
            e.setError "dicomio.veryifyElement: VR mismatch") ∧
      (env.vrKind t info.vr = env.vrKind t vr →
        verifyVROrDefault env t vr opts = .ok (vr, true))) ∧
    (opts.skipVRVerification = true →
      verifyVROrDefault env t vr opts = .ok (vr, false)) := by
  refine ⟨fun hskip => ⟨fun hkind => ⟨?_, ?_⟩, fun hkind => ?_⟩, fun hskip => ?_⟩
  · rw [verifyVROrDefault, hskip, hfind]
    simp [hvr, hne, hkind]
  · intro e u vals
    have hv : verifyVROrDefault env t vr opts =
        .error "dicomio.veryifyElement: VR mismatch" := by
      rw [verifyVROrDefault, hskip, hfind]
      simp [hvr, hne, hkind]
    rw [writeElement_eq_step, writeElementStep]
    have ht : (Element.mk t vr u vals).tag = t := rfl
    have hv2 : (Element.mk t vr u vals).vr = vr := rfl
    rw [ht, hv2, hv]
  · rw [verifyVROrDefault, hskip, hfind]
    simp [hvr, hne, hkind]
  · rw [verifyVROrDefault, hskip]
    simp [hvr]

/-- Witness for C4: a dictionary oracle mapping the tag to `UL` with VR kinds
separating `UL` from `US`, exercised on a supplied `US`. -/
theorem verifyVROrDefault_mismatch_witness :
    verifyVROrDefault
      ⟨fun _ => some ⟨"UL"⟩, fun _ s => if s == "UL" then 1 else 2, fun _ => [], .little,
        fixPrintAll⟩
      ⟨0x0008, 0x0000⟩ "US" fixOpts = .error "dicomio.veryifyElement: VR mismatch" ∧
    verifyVROrDefault
      ⟨fun _ => some ⟨"UL"⟩, fun _ s => if s == "UL" then 1 else 2, fun _ => [], .little,
        fixPrintAll⟩
      ⟨0x0008, 0x0000⟩ "US" fixOptsSkip = .ok ("US", false) := by
  have h := verifyVROrDefault_mismatch
    ⟨fun _ => some ⟨"UL"⟩, fun _ s => if s == "UL" then 1 else 2, fun _ => [], .little,
      fixPrintAll⟩
    ⟨0x0008, 0x0000⟩ "US" fixOpts ⟨"UL"⟩ (by decide) rfl (by decide)
  have h2 := verifyVROrDefault_mismatch
    ⟨fun _ => some ⟨"UL"⟩, fun _ s => if s == "UL" then 1 else 2, fun _ => [], .little,
      fixPrintAll⟩
    ⟨0x0008, 0x0000⟩ "US" fixOptsSkip ⟨"UL"⟩ (by decide) rfl (by decide)
  exact ⟨((h.1 rfl).1 (by decide)).1, h2.2 rfl⟩

/-! Encoder bookkeeping lemmas. -/

/-- Writing bytes never changes the sticky error. -/
@[simp] theorem Enc.err_writeBytes (e : Enc) (bs : List Nat) :
    (e.writeBytes bs).err = e.err := by
  rw [Enc.writeBytes]
  split <;> rfl

/-- Marking a panic never changes the sticky error. -/
@[simp] theorem Enc.err_panic (e : Enc) : e.panic.err = e.err := rfl

/-- An assertion never changes the sticky error. -/
@[simp] theorem Enc.err_assert (e : Enc) (c : Bool) : (e.assert c).err = e.err := by
  rw [Enc.assert]
  split <;> rfl

/-- Writing a 16-bit value never changes the sticky error. -/
@[simp] theorem Enc.err_writeU16 (e : Enc) (v : Nat) : (e.writeU16 v).err = e.err :=
  Enc.err_writeBytes ..

/-- Writing a 32-bit value never changes the sticky error. -/
@[simp] theorem Enc.err_writeU32 (e : Enc) (v : Nat) : (e.writeU32 v).err = e.err :=
  Enc.err_writeBytes ..

/-- Writing a string never changes the sticky error. -/
@[simp] theorem Enc.err_writeString (e : Enc) (s : String) : (e.writeString s).err = e.err :=
  Enc.err_writeBytes ..

/-- Writing zero bytes never changes the sticky error. -/
@[simp] theorem Enc.err_writeZeros (e : Enc) (n : Nat) : (e.writeZeros n).err = e.err :=
  Enc.err_writeBytes ..

/-- The element header writer never changes the sticky error. -/
theorem err_encodeElementHeader (e : Enc) (t : Tag) (vr : String) (vl : Nat) :
    (encodeElementHeader e t vr vl).err = e.err := by
  rw [encodeElementHeader]
  split
  · split <;> simp
  · simp
  · simp

/-- Writing an empty byte list is the identity. -/
theorem Enc.writeBytes_nil (e : Enc) : e.writeBytes [] = e := by
  rw [Enc.writeBytes]
  split
  · rfl
  · simp

/-! C2. -/

/-- Counterexample for C2: a `UN` element with undefined length is not
dropped; its twelve-byte Explicit-VR header (tag, `UN`, two reserved bytes,
zero length) does appear in the output, while indeed no error is set. -/
theorem writeElement_un_undefined_counterexample :
    (writeElement fixEnv fixOptsSkip fixEnc fixElemUN).bytes =
      [0x10, 0x00, 0x10, 0x00, 0x55, 0x4E, 0x00, 0x00, 0x00, 0x00, 0x00, 0x00] ∧
    (writeElement fixEnv fixOptsSkip fixEnc fixElemUN).bytes ≠ [] ∧
    (writeElement fixEnv fixOptsSkip fixEnc fixElemUN).err = none := by
  refine ⟨by decide, by decide, by decide⟩

/-- C2 as amended: for a non-pixel element whose effective VR is `UN` with
undefined length, `WriteElement` drops only the value: it emits exactly the
element header with value length zero, writes no value bytes, and sets no
error (the removal is logged as a warning, not silently). -/
theorem writeElement_un_undefined_header_only (env : WEnv) (opts : WriteOptSet)
    (e : Enc) (elem : Element) (w : Bool)
    (hv : verifyVROrDefault env elem.tag elem.vr opts = .ok ("UN", w))
    (hu : elem.undefinedLength = true) (hp : elem.tag ≠ tagPixelData) :
    writeElement env opts e elem = encodeElementHeader e elem.tag "UN" 0 ∧
    (encodeElementHeader e elem.tag "UN" 0).err = e.err := by
  have hpb : (elem.tag == tagPixelData) = false := by
    simpa using hp
  constructor
  · rw [writeElement_eq_step]
    unfold writeElementStep writeGeneral writeValuePayload
    rw [hv, hu, hpb]
    simp [Enc.assert, Enc.absorbPanic, Enc.fresh, Enc.writeBytes_nil]
  · exact err_encodeElementHeader ..

/-- Witness for C2's amended statement at the concrete `UN` fixture. -/
theorem writeElement_un_undefined_header_only_witness :
    writeElement fixEnv fixOptsSkip fixEnc fixElemUN =
      encodeElementHeader fixEnc fixElemUN.tag "UN" 0 ∧
    (encodeElementHeader fixEnc fixElemUN.tag "UN" 0).err = fixEnc.err :=
  writeElement_un_undefined_header_only fixEnv fixOptsSkip fixEnc fixElemUN false
    rfl (by decide) (by decide)

/-! C1. -/

/-- Counterexample for C1: an `AT` element with one tag value `(0028,0009)`
under Explicit-VR little-endian produces an eight-byte ASCII hex payload
`00280009` after the eight-byte header, not the four bytes group/element in
byte order that the claim requires. -/
theorem writeElement_at_counterexample :
    (writeElement fixEnv fixOptsSkip fixEnc fixElemAT).bytes =
      [0x40, 0x00, 0x10, 0x92, 0x41, 0x54, 0x08, 0x00,
       0x30, 0x30, 0x32, 0x38, 0x30, 0x30, 0x30, 0x39] ∧
    (writeElement fixEnv fixOptsSkip fixEnc fixElemAT).bytes.drop 8 ≠
      u16bytes .little 0x0028 ++ u16bytes .little 0x0009 := by
  refine ⟨by decide, by decide⟩

/-- C1 as amended: for a non-pixel element whose effective VR is `AT` with a
non-empty value list and defined length, `WriteElement` encodes the value
payload as text: each tag value becomes the eight ASCII characters
`GGGGEEEE` (uppercase hex of group then element), values are joined with
backslashes and the payload is space-padded to even length, independent of
the byte order. -/
theorem writeElement_at_hex_text (env : WEnv) (opts : WriteOptSet) (e : Enc)
    (elem : Element) (w : Bool)
    (hv : verifyVROrDefault env elem.tag elem.vr opts = .ok ("AT", w))
    (hp : elem.tag ≠ tagPixelData) (hu : elem.undefinedLength = false)
    (hne : elem.value ≠ []) :
    writeElement env opts e elem =
      (encodeElementHeader e elem.tag "AT"
        ((textPayload env elem.value).length % 4294967296)).writeBytes
        (textPayload env elem.value) ∧
    ∀ t : Tag, fmtValue env (.tagv t) = hexPad 4 t.group ++ hexPad 4 t.element := by
  have hpb : (elem.tag == tagPixelData) = false := by
    simpa using hp
  constructor
  · rw [writeElement_eq_step]
    unfold writeElementStep writeGeneral writeValuePayload
    rw [hv, hu, hpb]
    by_cases hodd : ((joinValues env elem.value).length % 2 == 1) = true
    · simp [Enc.assert, Enc.absorbPanic, Enc.fresh, Enc.writeBytes, Enc.writeByte,
        textPayload, hodd]
    · simp [Enc.assert, Enc.absorbPanic, Enc.fresh, Enc.writeBytes, Enc.writeByte,
        textPayload, hodd]
  · intro t
    rfl

/-- Witness for C1's amended statement at the concrete `AT` fixture. -/
theorem writeElement_at_hex_text_witness :
    writeElement fixEnv fixOptsSkip fixEnc fixElemAT =
      (encodeElementHeader fixEnc fixElemAT.tag "AT"
        ((textPayload fixEnv fixElemAT.value).length % 4294967296)).writeBytes
        (textPayload fixEnv fixElemAT.value) ∧
    ∀ t : Tag, fmtValue fixEnv (.tagv t) = hexPad 4 t.group ++ hexPad 4 t.element :=
  writeElement_at_hex_text fixEnv fixOptsSkip fixEnc fixElemAT false
    rfl (by decide) (by decide) (by simp [fixElemAT, Element.value])

/-! C3. -/

/-- Counterexample for C3: the bytes `C3 90` are valid UTF-8 (one rune,
U+00D0), trip the garbage heuristic, and their Windows-1251 decoding contains
Cyrillic runes, so the claim demands replacement by that decoding; yet the
read loop leaves the value unchanged, because `detectCyrillicEncoding`
returns valid UTF-8 input without consulting any candidate. -/
theorem readDataSet_cyrillic_counterexample :
    containsGarbage [0xC3, 0x90] = true ∧
    validUTF8 [0xC3, 0x90] = true ∧
    containsCyrillic (charmapDecode win1251Table [0xC3, 0x90]) = true ∧
    (readDataSetLoop fixPrintAll fixHtmlAll fixROpts [fixGarbageElem]).elements =
      [fixGarbageElem] ∧
    charmapDecode win1251Table [0xC3, 0x90] ≠ [0xC3, 0x90] := by
  refine ⟨by decide, by decide, by decide, ?_, by decide⟩
  rfl

/-- C3 as amended: during `ReadDataSet`, when no `SpecificCharacterSet` has
been installed and an element's first value is a non-empty string whose
garbage ratio exceeds 20%, the whole value list is replaced by the detected
decoding whenever that differs from the original; the detection returns the
string itself when it is valid UTF-8 (without consulting any candidate), and
otherwise redecodes against the priority list (default Cyrillic encoding
first, then windows-1251, koi8-r, iso-8859-5, cp866), accepting the first
decoding containing a Cyrillic rune and falling back to the original. -/
theorem readDataSet_cyrillic_autodetect (defaultEncoding : String) (charsetSet : Bool)
    (elem : Element) (s : List Nat) (hc : charsetSet = false)
    (hh : elem.value.head? = some (.str s)) (hs : s ≠ [])
    (hg : containsGarbage s = true) :
    (autoDetectValues defaultEncoding charsetSet elem =
      if detectCyrillicEncoding s defaultEncoding ≠ s then
        elem.setValue [.str (detectCyrillicEncoding s defaultEncoding)]
      else elem) ∧
    (validUTF8 s = true → detectCyrillicEncoding s defaultEncoding = s) ∧
    (validUTF8 s = false →
      detectCyrillicEncoding s defaultEncoding = specCyrillicRedecode defaultEncoding s) := by
  refine ⟨?_, fun hval => detectCyrillicEncoding_id_on_valid_utf8 s defaultEncoding hval, ?_⟩
  · have hempty : elem.value.isEmpty = false := by
      cases hval : elem.value with
      | nil => rw [hval] at hh; simp at hh
      | cons a rest => rfl
    have hsb : s.isEmpty = false := by
      cases s with
      | nil => exact absurd rfl hs
      | cons a rest => rfl
    rw [autoDetectValues, hc, hempty, hh]
    simp only [Bool.not_false, Bool.and_self, if_true, hsb, hg, Bool.and_true,
      Bool.not_false, reduceIte]
  · intro hval
    rw [detectCyrillicEncoding, hval]
    simp only [Bool.false_eq_true, if_false]
    by_cases h1 : defaultEncoding = "windows-1251"
    · subst h1
      by_cases hC : containsCyrillic (charmapDecode win1251Table s) = true <;>
        simp [specCyrillicRedecode, cyrPriorityList, cyrEncodings, hC, List.filter]
    · by_cases h2 : defaultEncoding = "koi8-r"
      · subst h2
        by_cases hC : containsCyrillic (charmapDecode koi8rTable s) = true <;>
          simp [specCyrillicRedecode, cyrPriorityList, cyrEncodings, hC, List.filter]
      · by_cases h3 : defaultEncoding = "iso-8859-5"
        · subst h3
          by_cases hC : containsCyrillic (charmapDecode iso88595Table s) = true <;>
            simp [specCyrillicRedecode, cyrPriorityList, cyrEncodings, hC, List.filter]
        · by_cases h4 : defaultEncoding = "cp866"
          · subst h4
            by_cases hC : containsCyrillic (charmapDecode cp866Table s) = true <;>
              simp [specCyrillicRedecode, cyrPriorityList, cyrEncodings, hC, List.filter]
          · have g1 : "windows-1251" ≠ defaultEncoding := fun h => h1 h.symm
            have g2 : "koi8-r" ≠ defaultEncoding := fun h => h2 h.symm
            have g3 : "iso-8859-5" ≠ defaultEncoding := fun h => h3 h.symm
            have g4 : "cp866" ≠ defaultEncoding := fun h => h4 h.symm
            have e1 : ("windows-1251" == defaultEncoding) = false :=
              beq_eq_false_iff_ne.mpr g1
            have e2 : ("koi8-r" == defaultEncoding) = false := beq_eq_false_iff_ne.mpr g2
            have e3 : ("iso-8859-5" == defaultEncoding) = false :=
              beq_eq_false_iff_ne.mpr g3
            have e4 : ("cp866" == defaultEncoding) = false := beq_eq_false_iff_ne.mpr g4
            simp [specCyrillicRedecode, cyrPriorityList, cyrEncodings, List.filter,
              List.find?, g1, g2, g3, g4, e1, e2, e3, e4, ite_self]

/-- Witness for C3's amended statement at invalid-UTF-8 Windows-1251 bytes. -/
theorem readDataSet_cyrillic_autodetect_witness :
    autoDetectValues "" false fixCyrElem =
      fixCyrElem.setValue [.str [0xD0, 0xA0, 0xD0, 0xB5, 0xD1, 0x82, 0xD1, 0x80]] ∧
    detectCyrillicEncoding [0xD0, 0xE5, 0xF2, 0xF0] "" =
      specCyrillicRedecode "" [0xD0, 0xE5, 0xF2, 0xF0] := by
  have h := readDataSet_cyrillic_autodetect "" false fixCyrElem [0xD0, 0xE5, 0xF2, 0xF0]
    rfl rfl (by decide) (by decide)
  exact ⟨h.1.trans (by rfl), h.2.2 (by decide)⟩

/-! C9. -/

/-- Auto-detection preserves the element's tag. -/
theorem Element.tag_autoDetect (d : String) (c : Bool) (e : Element) :
    (autoDetectValues d c e).tag = e.tag := by
  rw [autoDetectValues]
  split
  · split
    · split
      · dsimp only
        split
        · exact Element.tag_setValue ..
        · rfl
      · rfl
    · rfl
  · rfl

/-- `DS` splitting preserves the element's tag. -/
theorem Element.tag_processDS (e : Element) :
    (processMultiValueDSElement e).tag = e.tag := by
  rw [processMultiValueDSElement]
  split
  · split
    · exact Element.tag_setValue ..
    · rfl
  · rfl

/-- The combined auto-detect plus `DS`-splitting transform preserves the
element's tag. -/
theorem Element.tag_transformElem (d : String) (c : Bool) (e : Element) :
    (transformElem d c e).tag = e.tag := by
  rw [transformElem]
  split
  · rw [Element.tag_processDS, Element.tag_autoDetect]
  · rw [Element.tag_autoDetect]

/-- Tags appended by one read step: the incoming tag exactly when the
whitelist admits it. -/
theorem readStep_tags (isPrint : Nat → Bool) (htmlGet : List Nat → Bool)
    (options : ReadOptions) (st : RState) (elem : Element) :
    (readStep isPrint htmlGet options st elem).elements.map Element.tag =
      st.elements.map Element.tag ++
        (if options.returnTags.isNone ||
            (options.returnTags.isSome &&
              tagInList elem.tag (options.returnTags.getD [])) then [elem.tag]
         else []) := by
  rw [readStep]
  dsimp only
  rw [Element.tag_transformElem]
  split
  · simp [Element.tag_setValue, Element.tag_transformElem]
  · simp

/-- Charset flag after one read step, as a function of the incoming triple. -/
theorem readStep_charsetSet (isPrint : Nat → Bool) (htmlGet : List Nat → Bool)
    (options : ReadOptions) (st : RState) (elem : Element) :
    (readStep isPrint htmlGet options st elem).charsetSet =
      (charsetUpdate isPrint htmlGet options.cp1250Fix
        (st.charsetSet, st.cs, st.err) elem).1 := by
  rw [readStep]
  dsimp only
  split <;> rfl

/-- Coding system after one read step, as a function of the incoming triple. -/
theorem readStep_cs (isPrint : Nat → Bool) (htmlGet : List Nat → Bool)
    (options : ReadOptions) (st : RState) (elem : Element) :
    (readStep isPrint htmlGet options st elem).cs =
      (charsetUpdate isPrint htmlGet options.cp1250Fix
        (st.charsetSet, st.cs, st.err) elem).2.1 := by
  rw [readStep]
  dsimp only
  split <;> rfl

/-- Sticky error after one read step, as a function of the incoming triple. -/
theorem readStep_err (isPrint : Nat → Bool) (htmlGet : List Nat → Bool)
    (options : ReadOptions) (st : RState) (elem : Element) :
    (readStep isPrint htmlGet options st elem).err =
      (charsetUpdate isPrint htmlGet options.cp1250Fix
        (st.charsetSet, st.cs, st.err) elem).2.2 := by
  rw [readStep]
  dsimp only
  split <;> rfl

/-- The charset-state triple after one read step does not depend on the
whitelist or on the collected elements. -/
theorem readStep_core (isPrint : Nat → Bool) (htmlGet : List Nat → Bool)
    (o1 o2 : ReadOptions) (st1 st2 : RState) (elem : Element)
    (hcp : o1.cp1250Fix = o2.cp1250Fix)
    (hd : o1.defaultCyrillicEncoding = o2.defaultCyrillicEncoding)
    (h1 : st1.charsetSet = st2.charsetSet) (h2 : st1.cs = st2.cs)
    (h3 : st1.err = st2.err) :
    (readStep isPrint htmlGet o1 st1 elem).charsetSet =
      (readStep isPrint htmlGet o2 st2 elem).charsetSet ∧
    (readStep isPrint htmlGet o1 st1 elem).cs = (readStep isPrint htmlGet o2 st2 elem).cs ∧
    (readStep isPrint htmlGet o1 st1 elem).err =
      (readStep isPrint htmlGet o2 st2 elem).err := by
  rw [readStep_charsetSet, readStep_charsetSet, readStep_cs, readStep_cs,
    readStep_err, readStep_err, hcp, h1, h2, h3]
  exact ⟨rfl, rfl, rfl⟩

/-- Fold version of `readStep_tags`, generalised over the starting state. -/
theorem readLoop_tags (isPrint : Nat → Bool) (htmlGet : List Nat → Bool)
    (options : ReadOptions) (rt : List Tag) (h : options.returnTags = some rt) :
    ∀ (elems : List Element) (st : RState),
      (elems.foldl (readStep isPrint htmlGet options) st).elements.map Element.tag =
        st.elements.map Element.tag ++
          (elems.map Element.tag).filter (fun t => tagInList t rt) := by
  intro elems
  induction elems with
  | nil => intro st; simp
  | cons e es ih =>
    intro st
    rw [List.foldl_cons, ih]
    rw [readStep_tags, h]
    by_cases hkeep : tagInList e.tag rt
    · simp [hkeep]
    · simp [hkeep]

/-- Fold version of `readStep_core`, generalised over the starting states. -/
theorem readLoop_core (isPrint : Nat → Bool) (htmlGet : List Nat → Bool)
    (o1 o2 : ReadOptions) (hcp : o1.cp1250Fix = o2.cp1250Fix)
    (hd : o1.defaultCyrillicEncoding = o2.defaultCyrillicEncoding) :
    ∀ (elems : List Element) (st1 st2 : RState),
      st1.charsetSet = st2.charsetSet → st1.cs = st2.cs → st1.err = st2.err →
      (elems.foldl (readStep isPrint htmlGet o1) st1).charsetSet =
        (elems.foldl (readStep isPrint htmlGet o2) st2).charsetSet ∧
      (elems.foldl (readStep isPrint htmlGet o1) st1).cs =
        (elems.foldl (readStep isPrint htmlGet o2) st2).cs ∧
      (elems.foldl (readStep isPrint htmlGet o1) st1).err =
        (elems.foldl (readStep isPrint htmlGet o2) st2).err := by
  intro elems
  induction elems with
  | nil => intro st1 st2 h1 h2 h3; exact ⟨h1, h2, h3⟩
  | cons e es ih =>
    intro st1 st2 h1 h2 h3
    rw [List.foldl_cons, List.foldl_cons]
    have hstep := readStep_core isPrint htmlGet o1 o2 st1 st2 e hcp hd h1 h2 h3
    exact ih _ _ hstep.1 hstep.2.1 hstep.2.2

/-- C9: with a non-nil `ReturnTags` list, the elements returned by the
`ReadDataSet` loop are exactly those whose tag is in the list, in order of
appearance, while the installed charset state (including the coding system
installed by a `SpecificCharacterSet` element outside the list) is identical
to that of an unfiltered run. -/
theorem readDataSetLoop_returnTags (isPrint : Nat → Bool) (htmlGet : List Nat → Bool)
    (options : ReadOptions) (rt : List Tag) (elems : List Element)
    (h : options.returnTags = some rt) :
    ((readDataSetLoop isPrint htmlGet options elems).elements.map Element.tag =
      (elems.map Element.tag).filter (fun t => tagInList t rt)) ∧
    ((readDataSetLoop isPrint htmlGet options elems).charsetSet =
      (readDataSetLoop isPrint htmlGet { options with returnTags := none } elems).charsetSet) ∧
    ((readDataSetLoop isPrint htmlGet options elems).cs =
      (readDataSetLoop isPrint htmlGet { options with returnTags := none } elems).cs) := by
  have hcore := readLoop_core isPrint htmlGet options { options with returnTags := none }
    rfl rfl elems initialRState initialRState rfl rfl rfl
  have htags := readLoop_tags isPrint htmlGet options rt h elems initialRState
  exact ⟨by simpa [initialRState] using htags, hcore.1, hcore.2.1⟩

/-- Witness for C9: a `SpecificCharacterSet` element outside the whitelist is
dropped from the output yet still installs the ISO-IR-144 decoder triple. -/
theorem readDataSetLoop_returnTags_witness :
    ((readDataSetLoop fixPrintAll fixHtmlAll fixROptsRT
        [fixSCSElem, fixPNElem]).elements.map Element.tag =
      ([fixSCSElem, fixPNElem].map Element.tag).filter
        (fun t => tagInList t [⟨0x0010, 0x0010⟩])) ∧
    ((readDataSetLoop fixPrintAll fixHtmlAll fixROptsRT
        [fixSCSElem, fixPNElem]).charsetSet =
      (readDataSetLoop fixPrintAll fixHtmlAll
        { fixROptsRT with returnTags := none } [fixSCSElem, fixPNElem]).charsetSet) ∧
    (readDataSetLoop fixPrintAll fixHtmlAll fixROptsRT
        [fixSCSElem, fixPNElem]).charsetSet = true ∧
    (readDataSetLoop fixPrintAll fixHtmlAll fixROptsRT [fixSCSElem, fixPNElem]).cs =
      ⟨some (.charmapDec "iso-8859-5"), some (.charmapDec "iso-8859-5"),
       some (.charmapDec "iso-8859-5")⟩ := by
  have h := readDataSetLoop_returnTags fixPrintAll fixHtmlAll fixROptsRT
    [⟨0x0010, 0x0010⟩] [fixSCSElem, fixPNElem] rfl
  exact ⟨h.1, h.2.1, by decide, by decide⟩

/-! Byte-append lemmas: every writer operation only appends to the output. -/

/-- A function on encoders that can only append output bytes. -/
def BytesApp (f : Enc → Enc) : Prop := ∀ e, ∃ t, (f e).bytes = e.bytes ++ t

/-- The identity appends nothing. -/
theorem bytesApp_id : BytesApp (fun e => e) := fun e => ⟨[], by simp⟩

/-- Composition of appending functions appends. -/
theorem BytesApp.comp {f g : Enc → Enc} (hf : BytesApp f) (hg : BytesApp g) :
    BytesApp (fun e => g (f e)) := by
  intro e
  obtain ⟨t1, h1⟩ := hf e
  obtain ⟨t2, h2⟩ := hg (f e)
  exact ⟨t1 ++ t2, by rw [h2, h1, List.append_assoc]⟩

/-- Raw byte writes append. -/
theorem bytesApp_writeBytes (bs : List Nat) : BytesApp (fun e => e.writeBytes bs) := by
  intro e
  dsimp only
  rw [Enc.writeBytes]
  split
  · exact ⟨[], by simp⟩
  · exact ⟨bs, rfl⟩

/-- Error setting appends nothing. -/
theorem bytesApp_setError (m : String) : BytesApp (fun e => e.setError m) := by
  intro e
  refine ⟨[], ?_⟩
  simp only [Enc.setError]
  split
  · simp
  · split <;> simp

/-- Panic marking appends nothing. -/
theorem bytesApp_panic : BytesApp (fun e => e.panic) := fun e => ⟨[], by simp [Enc.panic]⟩

/-- Assertions append nothing. -/
theorem bytesApp_assert (c : Bool) : BytesApp (fun e => e.assert c) := by
  intro e
  dsimp only
  rw [Enc.assert]
  split
  · exact ⟨[], by simp⟩
  · exact bytesApp_panic e

/-- Panic absorption appends nothing. -/
theorem bytesApp_absorbPanic (sub : Enc) : BytesApp (fun e => e.absorbPanic sub) := by
  intro e
  dsimp only
  rw [Enc.absorbPanic]
  split
  · exact bytesApp_panic e
  · exact ⟨[], by simp⟩

/-- Pushing a syntax frame appends nothing. -/
theorem bytesApp_push (ts : Endian × VRMode) : BytesApp (fun e => e.push ts) := by
  intro e
  dsimp only
  rw [Enc.push]
  split <;> exact ⟨[], by simp⟩

/-- Popping a syntax frame appends nothing. -/
theorem bytesApp_pop : BytesApp (fun e => e.pop) := by
  intro e
  dsimp only
  rw [Enc.pop]
  split <;> exact ⟨[], by simp⟩

/-- 16-bit writes append. -/
theorem bytesApp_writeU16 (v : Nat) : BytesApp (fun e => e.writeU16 v) := by
  intro e
  exact bytesApp_writeBytes (u16bytes e.ts.1 v) e

/-- 32-bit writes append. -/
theorem bytesApp_writeU32 (v : Nat) : BytesApp (fun e => e.writeU32 v) := by
  intro e
  exact bytesApp_writeBytes (u32bytes e.ts.1 v) e

/-- 64-bit writes append. -/
theorem bytesApp_writeU64 (v : Nat) : BytesApp (fun e => e.writeU64 v) := by
  intro e
  exact bytesApp_writeBytes (u64bytes e.ts.1 v) e

/-- Signed 16-bit writes append. -/
theorem bytesApp_writeI16 (v : Int) : BytesApp (fun e => e.writeI16 v) := by
  intro e
  exact bytesApp_writeU16 _ e

/-- Signed 32-bit writes append. -/
theorem bytesApp_writeI32 (v : Int) : BytesApp (fun e => e.writeI32 v) := by
  intro e
  exact bytesApp_writeU32 _ e

/-- String writes append. -/
theorem bytesApp_writeString (s : String) : BytesApp (fun e => e.writeString s) :=
  bytesApp_writeBytes (gs s)

/-- Zero writes append. -/
theorem bytesApp_writeZeros (n : Nat) : BytesApp (fun e => e.writeZeros n) :=
  bytesApp_writeBytes (List.replicate n 0)

/-- Chaining step: extend an append fact by one appending operation. -/
theorem BytesApp.step {a b : Enc} {t : List Nat} (h : b.bytes = a.bytes ++ t)
    {f : Enc → Enc} (hf : BytesApp f) : ∃ u, (f b).bytes = a.bytes ++ u := by
  obtain ⟨u, hu⟩ := hf b
  exact ⟨t ++ u, by rw [hu, h, List.append_assoc]⟩

/-- The element-header writer appends. -/
theorem bytesApp_encodeElementHeader (t : Tag) (vr : String) (vl : Nat) :
    BytesApp (fun e => encodeElementHeader e t vr vl) := by
  intro e
  dsimp only
  rw [encodeElementHeader]
  have h0 : (e : Enc).bytes = e.bytes ++ [] := by simp
  have h1 := BytesApp.step h0 (bytesApp_assert (vl == undefinedLength || vl % 2 == 0))
  obtain ⟨u1, h1⟩ := h1
  obtain ⟨u2, h2⟩ := BytesApp.step h1 (bytesApp_writeU16 t.group)
  obtain ⟨u3, h3⟩ := BytesApp.step h2 (bytesApp_writeU16 t.element)
  split
  · obtain ⟨u4, h4⟩ := BytesApp.step h3 (bytesApp_assert (vr.length == 2))
    obtain ⟨u5, h5⟩ := BytesApp.step h4 (bytesApp_writeString vr)
    split
    · obtain ⟨u6, h6⟩ := BytesApp.step h5 (bytesApp_writeZeros 2)
      obtain ⟨u7, h7⟩ := BytesApp.step h6 (bytesApp_writeU32 vl)
      exact ⟨u7, h7⟩
    · obtain ⟨u6, h6⟩ := BytesApp.step h5 (bytesApp_writeU16 vl)
      exact ⟨u6, h6⟩
  · obtain ⟨u4, h4⟩ := BytesApp.step h3 (bytesApp_writeU32 vl)
    exact ⟨u4, h4⟩
  · obtain ⟨u4, h4⟩ := BytesApp.step h3 bytesApp_panic
    exact ⟨u4, h4⟩

/-- Error setting preserves the output bytes exactly. -/
theorem Enc.bytes_setError (e : Enc) (m : String) : (e.setError m).bytes = e.bytes := by
  simp only [Enc.setError]
  split
  · rfl
  · split <;> rfl

/-- Raw items append. -/
theorem bytesApp_writeRawItem (data : List Nat) :
    BytesApp (fun e => writeRawItem e data) := by
  intro e
  dsimp only
  rw [writeRawItem]
  have h0 : (e : Enc).bytes = e.bytes ++ [] := by simp
  obtain ⟨u1, h1⟩ := BytesApp.step h0
    (bytesApp_encodeElementHeader tagItem "NA" (data.length % 4294967296))
  obtain ⟨u2, h2⟩ := BytesApp.step h1 (bytesApp_writeBytes data)
  exact ⟨u2, h2⟩

/-- The basic offset table writer appends. -/
theorem bytesApp_writeBasicOffsetTable (offsets : List Nat) :
    BytesApp (fun e => writeBasicOffsetTable e offsets) := by
  intro e
  dsimp only
  rw [writeBasicOffsetTable]
  have h0 : (e : Enc).bytes = e.bytes ++ [] := by simp
  obtain ⟨u1, h1⟩ := BytesApp.step h0 (bytesApp_absorbPanic _)
  obtain ⟨u2, h2⟩ := BytesApp.step h1 (bytesApp_writeRawItem _)
  exact ⟨u2, h2⟩

/-- A fold of appending operations appends. -/
theorem bytesApp_foldl {α : Type} (f : Enc → α → Enc)
    (hf : ∀ a, BytesApp (fun e => f e a)) (l : List α) :
    BytesApp (fun e => l.foldl f e) := by
  induction l with
  | nil => intro e; exact ⟨[], by simp⟩
  | cons a rest ih =>
    intro e
    dsimp only
    rw [List.foldl_cons]
    obtain ⟨u1, h1⟩ := hf a e
    obtain ⟨u2, h2⟩ := BytesApp.step h1 ih
    exact ⟨u2, h2⟩

/-- The numeric-value loop leaves the outer encoder's bytes untouched. -/
theorem writeNumericValues_fst_bytes (pick : Value → Option (Enc → Enc)) (msg : String) :
    ∀ (vs : List Value) (e sube : Enc),
      (writeNumericValues pick msg (e, sube) vs).1.bytes = e.bytes := by
  intro vs
  induction vs with
  | nil => intro e sube; rfl
  | cons v rest ih =>
    intro e sube
    rw [writeNumericValues]
    split
    · rw [ih]
    · rw [ih, Enc.bytes_setError]

/-- The value-payload switch leaves the outer encoder's bytes untouched. -/
theorem writeValuePayload_fst_bytes (env : WEnv) (e sube : Enc) (elem : Element)
    (vr : String) : (writeValuePayload env e sube elem vr).1.bytes = e.bytes := by
  rw [writeValuePayload]
  by_cases h1 : (vr == "US") = true
  · rw [if_pos h1]
    exact writeNumericValues_fst_bytes ..
  · rw [if_neg h1]
    by_cases h2 : (vr == "UL") = true
    · rw [if_pos h2]
      exact writeNumericValues_fst_bytes ..
    · rw [if_neg h2]
      by_cases h3 : (vr == "SL") = true
      · rw [if_pos h3]
        exact writeNumericValues_fst_bytes ..
      · rw [if_neg h3]
        by_cases h4 : (vr == "SS") = true
        · rw [if_pos h4]
          exact writeNumericValues_fst_bytes ..
        · rw [if_neg h4]
          by_cases h5 : (vr == "FL" || vr == "OF") = true
          · rw [if_pos h5]
            exact writeNumericValues_fst_bytes ..
          · rw [if_neg h5]
            by_cases h6 : (vr == "FD" || vr == "OD") = true
            · rw [if_pos h6]
              exact writeNumericValues_fst_bytes ..
            · rw [if_neg h6]
              by_cases h7 : (vr == "OW" || vr == "OB") = true
              · rw [if_pos h7]
                split
                all_goals
                  repeat'
                    first
                    | exact Enc.bytes_setError ..
                    | rfl
                    | split
              · rw [if_neg h7]
                by_cases h8 : (vr == "UI") = true
                · rw [if_pos h8]
                · rw [if_neg h8]
                  by_cases h9 : (elem.undefinedLength && vr == "UN") = true
                  · rw [if_pos h9]
                  · rw [if_neg h9]

/-- The direct item loop appends, provided the recursive writer appends. -/
theorem writeSubDirect_fst_bytes (recur : Enc → Element → Enc)
    (hrec : ∀ el, BytesApp (fun e => recur e el)) (requireItem : Bool) (badMsg : String) :
    ∀ (vs : List Value) (e : Enc),
      ∃ t, (writeSubDirect recur requireItem badMsg e vs).1.bytes = e.bytes ++ t := by
  intro vs
  induction vs with
  | nil => intro e; exact ⟨[], by simp [writeSubDirect]⟩
  | cons v rest ih =>
    intro e
    cases v
    case sub s =>
      rw [writeSubDirect]
      split
      · exact ⟨[], by simp [Enc.bytes_setError]⟩
      · obtain ⟨u1, h1⟩ := hrec s e
        obtain ⟨u2, h2⟩ := BytesApp.step h1 (fun b => ih b)
        exact ⟨u2, h2⟩
    all_goals exact ⟨[], by simp [writeSubDirect, Enc.bytes_setError]⟩

/-- The sub-encoder item loop leaves the outer encoder's bytes untouched. -/
theorem writeSubInto_fst_bytes (recur : Enc → Element → Enc) (requireItem : Bool)
    (badMsg : String) :
    ∀ (vs : List Value) (e sube : Enc),
      (writeSubInto recur requireItem badMsg e sube vs).1.bytes = e.bytes := by
  intro vs
  induction vs with
  | nil => intro e sube; rfl
  | cons v rest ih =>
    intro e sube
    cases v
    case sub s =>
      rw [writeSubInto]
      split
      · exact Enc.bytes_setError ..
      · exact ih ..
    all_goals simp [writeSubInto, Enc.bytes_setError]

/-- The extracted pixel-info encoder keeps the output bytes. -/
theorem pixelInfoOf_bytes (e : Enc) (v : Value) : (pixelInfoOf e v).2.2.bytes = e.bytes := by
  cases v <;> simp [pixelInfoOf, Enc.bytes_setError]

/-- The pixel payload writer appends. -/
theorem bytesApp_writePixelPayload (elem : Element) (vr : String) (offsets : List Nat)
    (frames : List (List Nat)) :
    BytesApp (fun e => writePixelPayload e elem vr offsets frames) := by
  intro e
  dsimp only
  rw [writePixelPayload]
  have h0 : (e : Enc).bytes = e.bytes ++ [] := by simp
  split
  · obtain ⟨u1, h1⟩ := BytesApp.step h0 (bytesApp_encodeElementHeader elem.tag vr _)
    obtain ⟨u2, h2⟩ := BytesApp.step h1 (bytesApp_writeBasicOffsetTable offsets)
    obtain ⟨u3, h3⟩ := BytesApp.step h2
      (bytesApp_foldl _ (fun d => bytesApp_writeRawItem d) frames)
    exact BytesApp.step h3 (bytesApp_encodeElementHeader tagSequenceDelimitationItem "" 0)
  · obtain ⟨u1, h1⟩ := BytesApp.step h0 (bytesApp_assert (frames.length == 1))
    obtain ⟨u2, h2⟩ := BytesApp.step h1 (bytesApp_encodeElementHeader elem.tag vr _)
    exact BytesApp.step h2 (bytesApp_writeBytes (frames.headD []))

/-- The PixelData branch appends. -/
theorem bytesApp_writePixelData (elem : Element) (vr : String) :
    BytesApp (fun e => writePixelData e elem vr) := by
  intro e
  dsimp only
  rw [writePixelData]
  have hb : ∃ ub, (if (elem.value.length != 1) = true then
      e.setError "PixelData element must have one value of type PixelDataInfo"
    else e).bytes = e.bytes ++ ub := by
    split
    · exact ⟨[], by rw [Enc.bytes_setError, List.append_nil]⟩
    · exact ⟨[], by rw [List.append_nil]⟩
  obtain ⟨ub, hb⟩ := hb
  split
  · exact BytesApp.step hb bytesApp_panic
  · rename_i v heqv
    rcases hpi : pixelInfoOf (if (elem.value.length != 1) = true then
        e.setError "PixelData element must have one value of type PixelDataInfo"
      else e) v with ⟨off, fr, e2⟩
    have he2 : e2.bytes = e.bytes ++ ub := by
      have := pixelInfoOf_bytes (if (elem.value.length != 1) = true then
          e.setError "PixelData element must have one value of type PixelDataInfo"
        else e) v
      rw [hpi] at this
      dsimp only at this
      rw [this]
      exact hb
    dsimp only
    exact BytesApp.step he2 (bytesApp_writePixelPayload elem vr off fr)

/-- The `SQ`/`NA` branch appends, provided the recursive writer appends. -/
theorem bytesApp_writeSeqLike (recur : Enc → Element → Enc)
    (hrec : ∀ el, BytesApp (fun e => recur e el)) (requireItem : Bool) (badMsg : String)
    (delim : Tag) (elem : Element) (vr : String) :
    BytesApp (fun e => writeSeqLike recur requireItem badMsg delim e elem vr) := by
  intro e
  dsimp only
  rw [writeSeqLike]
  have h0 : (e : Enc).bytes = e.bytes ++ [] := by simp
  split
  · dsimp only
    obtain ⟨u1, h1⟩ := BytesApp.step h0 (bytesApp_encodeElementHeader elem.tag vr _)
    rcases hsd : writeSubDirect recur requireItem badMsg
      (encodeElementHeader e elem.tag vr undefinedLength) elem.value with ⟨e2, ok⟩
    obtain ⟨u2, h2⟩ := writeSubDirect_fst_bytes recur hrec requireItem badMsg elem.value
      (encodeElementHeader e elem.tag vr undefinedLength)
    rw [hsd] at h2
    dsimp only at h2
    rw [h1, List.append_assoc] at h2
    dsimp only
    split
    · exact BytesApp.step h2 (bytesApp_encodeElementHeader delim "" 0)
    · exact ⟨u1 ++ u2, h2⟩
  · dsimp only
    rcases hsi : writeSubInto recur requireItem badMsg e (Enc.fresh e.ts) elem.value with
      ⟨e2, sube2, ok⟩
    have h2 := writeSubInto_fst_bytes recur requireItem badMsg elem.value e (Enc.fresh e.ts)
    rw [hsi] at h2
    dsimp only at h2
    have h2' : e2.bytes = e.bytes ++ [] := by rw [h2, List.append_nil]
    dsimp only
    obtain ⟨u3, h3⟩ := BytesApp.step h2' (bytesApp_absorbPanic sube2)
    split
    · split
      · exact ⟨u3, by rw [Enc.bytes_setError]; exact h3⟩
      · obtain ⟨u4, h4⟩ := BytesApp.step h3 (bytesApp_encodeElementHeader elem.tag vr _)
        exact BytesApp.step h4 (bytesApp_writeBytes sube2.bytes)
    · exact ⟨u3, h3⟩

/-- The general branch appends. -/
theorem bytesApp_writeGeneral (env : WEnv) (elem : Element) (vr : String) :
    BytesApp (fun e => writeGeneral env e elem vr) := by
  intro e
  dsimp only
  rw [writeGeneral]
  split
  · exact ⟨[], by rw [Enc.bytes_setError, List.append_nil]⟩
  · dsimp only
    rcases hwp : writeValuePayload env e (Enc.fresh e.ts) elem vr with ⟨e2, sube2⟩
    have h2 := writeValuePayload_fst_bytes env e (Enc.fresh e.ts) elem vr
    rw [hwp] at h2
    dsimp only at h2
    have h2' : e2.bytes = e.bytes ++ [] := by rw [h2, List.append_nil]
    dsimp only
    obtain ⟨u3, h3⟩ := BytesApp.step h2' (bytesApp_absorbPanic sube2)
    split
    · exact ⟨u3, by rw [Enc.bytes_setError]; exact h3⟩
    · obtain ⟨u4, h4⟩ := BytesApp.step h3 (bytesApp_encodeElementHeader elem.tag vr _)
      exact BytesApp.step h4 (bytesApp_writeBytes sube2.bytes)

/-- One writer step appends, provided the recursive writer appends. -/
theorem bytesApp_writeElementStep (env : WEnv) (opts : WriteOptSet)
    (recur : Enc → Element → Enc) (hrec : ∀ el, BytesApp (fun e => recur e el))
    (elem : Element) : BytesApp (fun e => writeElementStep env opts recur e elem) := by
  intro e
  dsimp only
  rw [writeElementStep]
  have h0 : (e : Enc).bytes = e.bytes ++ [] := by simp
  split
  · exact ⟨[], by rw [Enc.bytes_setError, List.append_nil]⟩
  · rename_i vr w heq
    obtain ⟨ua, ha⟩ := BytesApp.step h0 (bytesApp_assert (vr != ""))
    split
    · exact BytesApp.step ha (bytesApp_writePixelData elem vr)
    · split
      · exact BytesApp.step ha (bytesApp_writeSeqLike recur hrec true
          "SQ element must be an Item" tagSequenceDelimitationItem elem vr)
      · split
        · exact BytesApp.step ha (bytesApp_writeSeqLike recur hrec false
            "Item values must be a dicom.Element" tagItemDelimitationItem elem vr)
        · exact BytesApp.step ha (bytesApp_writeGeneral env elem vr)

/-- The fuelled writer appends. -/
theorem bytesApp_writeElementCore (env : WEnv) (opts : WriteOptSet) :
    ∀ (fuel : Nat) (elem : Element),
      BytesApp (fun e => writeElementCore env opts fuel e elem) := by
  intro fuel
  induction fuel with
  | zero => intro elem e; exact bytesApp_panic e
  | succ n ih =>
    intro elem
    exact bytesApp_writeElementStep env opts (writeElementCore env opts n) ih elem

/-- `WriteElement` only appends to the encoder output. -/
theorem bytesApp_writeElement (env : WEnv) (opts : WriteOptSet) (elem : Element) :
    BytesApp (fun e => writeElement env opts e elem) :=
  bytesApp_writeElementCore env opts elem.esize elem

/-! C5. -/

/-- The required-meta-element writer appends. -/
theorem bytesApp_writeRequiredMetaElem (env : WEnv) (opts : WriteOptSet)
    (metaElems : List Element) (t : Tag) :
    BytesApp (fun sub => writeRequiredMetaElem env opts metaElems sub t) := by
  intro sub
  dsimp only
  rw [writeRequiredMetaElem]
  split
  · exact bytesApp_writeElement env opts _ sub
  · exact bytesApp_setError _ sub

/-- The optional-meta-element writer appends. -/
theorem bytesApp_writeOptionalMetaElem (env : WEnv) (opts : WriteOptSet)
    (metaElems : List Element) (t : Tag) (dflt : Value) :
    BytesApp (fun sub => writeOptionalMetaElem env opts metaElems sub t dflt) := by
  intro sub
  dsimp only
  rw [writeOptionalMetaElem]
  split
  · exact bytesApp_writeElement env opts _ sub
  · exact bytesApp_writeElement env opts _ sub

/-- The trailing group-2 loop of the meta block appends. -/
theorem bytesApp_metaTail (env : WEnv) (opts : WriteOptSet) (metaElems : List Element) :
    BytesApp (fun sub => metaElems.foldl
      (fun sub el =>
        if el.tag.group == metadataGroup && !(headerTagsUsed.contains el.tag) then
          writeElement env opts sub el
        else sub)
      sub) := by
  refine bytesApp_foldl _ (fun el sub => ?_) metaElems
  dsimp only
  split
  · exact bytesApp_writeElement env opts el sub
  · exact ⟨[], by simp⟩

/-- C5: `WriteFileHeader` emits, in order, 128 zero bytes, `DICM`, the
group-length element holding the meta block's byte length, then the meta
block; and when `FileMetaInformationVersion` is absent from the input, the
meta block starts with the encoding of the default element whose value is the
bytes `"0 1"`. -/
theorem writeFileHeader_layout (env : WEnv) (opts : WriteOptSet) (e : Enc)
    (metaElems : List Element)
    (herr : (buildMetaBlock env opts metaElems).err = none) :
    writeFileHeader env opts e metaElems =
      ((writeElement env opts
          ((((e.push (Endian.little, VRMode.explicitVR)).absorbPanic
              (buildMetaBlock env opts metaElems)).writeZeros 128).writeString "DICM")
          (mustNewElement env tagFileMetaInformationGroupLength
            (.u32 ((buildMetaBlock env opts metaElems).bytes.length % 4294967296)))).writeBytes
        (buildMetaBlock env opts metaElems).bytes).pop ∧
    (findElementByTag metaElems tagFileMetaInformationVersion = none →
      ∃ rest, (buildMetaBlock env opts metaElems).bytes =
        (writeElement env opts (Enc.fresh (Endian.little, VRMode.explicitVR))
          (mustNewElement env tagFileMetaInformationVersion
            (.bytes (gs "0 1")))).bytes ++ rest) := by
  constructor
  · rw [writeFileHeader]
    simp only [herr]
  · intro hFMI
    have hfirst : writeOptionalMetaElem env opts metaElems
        (Enc.fresh (Endian.little, VRMode.explicitVR)) tagFileMetaInformationVersion
        (.bytes (gs "0 1")) =
        writeElement env opts (Enc.fresh (Endian.little, VRMode.explicitVR))
          (mustNewElement env tagFileMetaInformationVersion (.bytes (gs "0 1"))) := by
      rw [writeOptionalMetaElem, hFMI]
    rw [buildMetaBlock, hfirst]
    have h0 : (writeElement env opts (Enc.fresh (Endian.little, VRMode.explicitVR))
        (mustNewElement env tagFileMetaInformationVersion (.bytes (gs "0 1")))).bytes =
        (writeElement env opts (Enc.fresh (Endian.little, VRMode.explicitVR))
          (mustNewElement env tagFileMetaInformationVersion (.bytes (gs "0 1")))).bytes ++
          [] := by
      simp
    obtain ⟨u1, h1⟩ := BytesApp.step h0
      (bytesApp_writeRequiredMetaElem env opts metaElems tagMediaStorageSOPClassUID)
    obtain ⟨u2, h2⟩ := BytesApp.step h1
      (bytesApp_writeRequiredMetaElem env opts metaElems tagMediaStorageSOPInstanceUID)
    obtain ⟨u3, h3⟩ := BytesApp.step h2
      (bytesApp_writeRequiredMetaElem env opts metaElems tagTransferSyntaxUID)
    obtain ⟨u4, h4⟩ := BytesApp.step h3
      (bytesApp_writeOptionalMetaElem env opts metaElems tagImplementationClassUID
        (.str (gs goDICOMImplementationClassUID)))
    obtain ⟨u5, h5⟩ := BytesApp.step h4
      (bytesApp_writeOptionalMetaElem env opts metaElems tagImplementationVersionName
        (.str (gs goDICOMImplementationVersionName)))
    obtain ⟨u6, h6⟩ := BytesApp.step h5 (bytesApp_metaTail env opts metaElems)
    exact ⟨u6, h6⟩

/-- Witness for C5 at a concrete meta-element list lacking
`FileMetaInformationVersion`. -/
theorem writeFileHeader_layout_witness :
    (buildMetaBlock fixEnv fixOpts (fixDS.filter
        (fun el => el.tag.group == metadataGroup))).err = none ∧
    findElementByTag (fixDS.filter (fun el => el.tag.group == metadataGroup))
      tagFileMetaInformationVersion = none ∧
    (writeFileHeader fixEnv fixOpts fixEnc (fixDS.filter
        (fun el => el.tag.group == metadataGroup)) =
      ((writeElement fixEnv fixOpts
          ((((fixEnc.push (Endian.little, VRMode.explicitVR)).absorbPanic
              (buildMetaBlock fixEnv fixOpts (fixDS.filter
                (fun el => el.tag.group == metadataGroup)))).writeZeros 128).writeString
            "DICM")
          (mustNewElement fixEnv tagFileMetaInformationGroupLength
            (.u32 ((buildMetaBlock fixEnv fixOpts (fixDS.filter
              (fun el => el.tag.group == metadataGroup))).bytes.length % 4294967296)))).writeBytes
        (buildMetaBlock fixEnv fixOpts (fixDS.filter
          (fun el => el.tag.group == metadataGroup))).bytes).pop) ∧
    (∃ rest, (buildMetaBlock fixEnv fixOpts (fixDS.filter
        (fun el => el.tag.group == metadataGroup))).bytes =
      (writeElement fixEnv fixOpts (Enc.fresh (Endian.little, VRMode.explicitVR))
        (mustNewElement fixEnv tagFileMetaInformationVersion
          (.bytes (gs "0 1")))).bytes ++ rest) := by
  have h := writeFileHeader_layout fixEnv fixOpts fixEnc
    (fixDS.filter (fun el => el.tag.group == metadataGroup)) (by decide)
  exact ⟨by decide, rfl, h.1, h.2 rfl⟩

/-! C8. -/

/-- A guarded fold equals the fold over the filtered list. -/
theorem foldl_guard_eq_foldl_filter {α β : Type} (p : α → Bool) (f : β → α → β) :
    ∀ (l : List α) (b : β),
      l.foldl (fun acc a => if p a then f acc a else acc) b = (l.filter p).foldl f b := by
  intro l
  induction l with
  | nil => intro b; rfl
  | cons a rest ih =>
    intro b
    rw [List.foldl_cons, List.filter_cons]
    by_cases h : p a = true
    · rw [if_pos h, h]
      rw [if_pos rfl, List.foldl_cons, ih]
    · rw [if_neg h]
      have hf : p a = false := by
        cases hp : p a
        · rfl
        · exact absurd hp h
      rw [hf]
      simp only [Bool.false_eq_true, if_false]
      exact ih b

/-- C8: `WriteDataSet` writes, after the file header, exactly those elements
whose tag group is even and different from the meta group `0x0002`, in their
order of appearance; meta-group and odd-group elements never reach the body.
The returned error is the final encoder error. -/
theorem writeDataSet_body (env : WEnv) (opts : WriteOptSet) (ds : List Element)
    (ts : Endian × VRMode)
    (hh : (writeFileHeader env opts ⟨[], none, [(Endian.little, VRMode.unknownVR)], false⟩
      (ds.filter (fun el => el.tag.group == metadataGroup))).err = none)
    (hts : getTransferSyntax env.isPrint ds = .ok ts) :
    (writeDataSet env opts ds).1 =
      ((ds.filter (fun el => el.tag.group != metadataGroup && el.tag.group % 2 == 0)).foldl
        (writeElement env opts)
        ((writeFileHeader env opts ⟨[], none, [(Endian.little, VRMode.unknownVR)], false⟩
          (ds.filter (fun el => el.tag.group == metadataGroup))).push ts)).pop ∧
    (writeDataSet env opts ds).2 = (writeDataSet env opts ds).1.err ∧
    ∀ el ∈ ds.filter (fun el => el.tag.group != metadataGroup && el.tag.group % 2 == 0),
      el.tag.group ≠ metadataGroup ∧ el.tag.group % 2 = 0 := by
  have hmain : writeDataSet env opts ds =
      (((ds.filter (fun el => el.tag.group != metadataGroup && el.tag.group % 2 == 0)).foldl
          (writeElement env opts)
          ((writeFileHeader env opts ⟨[], none, [(Endian.little, VRMode.unknownVR)], false⟩
            (ds.filter (fun el => el.tag.group == metadataGroup))).push ts)).pop,
        (((ds.filter (fun el =>
            el.tag.group != metadataGroup && el.tag.group % 2 == 0)).foldl
          (writeElement env opts)
          ((writeFileHeader env opts ⟨[], none, [(Endian.little, VRMode.unknownVR)], false⟩
            (ds.filter (fun el => el.tag.group == metadataGroup))).push ts)).pop).err) := by
    rw [writeDataSet]
    simp only [hh, hts]
    rw [foldl_guard_eq_foldl_filter]
  refine ⟨by rw [hmain], by rw [hmain], ?_⟩
  intro el hel
  have hmem := List.of_mem_filter hel
  have hsplit : ¬el.tag.group = metadataGroup ∧ el.tag.group % 2 = 0 := by
    simpa using hmem
  exact ⟨hsplit.1, hsplit.2⟩

/-- Witness for C8 at a concrete data set holding meta elements, a charset
element, a private odd-group element and a patient-name element. -/
theorem writeDataSet_body_witness :
    (writeFileHeader fixEnv fixOpts ⟨[], none, [(Endian.little, VRMode.unknownVR)], false⟩
      (fixDS.filter (fun el => el.tag.group == metadataGroup))).err = none ∧
    getTransferSyntax fixEnv.isPrint fixDS = .ok (Endian.little, VRMode.explicitVR) ∧
    (writeDataSet fixEnv fixOpts fixDS).1 =
      ((fixDS.filter (fun el =>
          el.tag.group != metadataGroup && el.tag.group % 2 == 0)).foldl
        (writeElement fixEnv fixOpts)
        ((writeFileHeader fixEnv fixOpts
          ⟨[], none, [(Endian.little, VRMode.unknownVR)], false⟩
          (fixDS.filter (fun el => el.tag.group == metadataGroup))).push
            (Endian.little, VRMode.explicitVR))).pop := by
  have h := writeDataSet_body fixEnv fixOpts fixDS (Endian.little, VRMode.explicitVR)
    (by decide) rfl
  exact ⟨by decide, rfl, h.1⟩

end DicomSpec
